import Mathlib

/-!
Verification of the Lumina chatbot core (hoshino-chatbot).

Shallow embedding of:
- `src/core/ai-response.js` : `generateAIResponse` (sleep window, response cache,
  per-user rate limiter, inference call with failure handling) and its cache-key
  derivation (`JSON.stringify` of the context dimensions);
- `core/core.js` : `checkNgambekStatus` (sulk state machine);
- `src/handler/commandHandlers.js` : `setMood`, `getRandomMood`;
- `src/data/memory.js` : `cleanupOldLTMs` (tiered batched LTM retention).

Conventions: timestamps are epoch milliseconds modelled as `Int`; calendar days
are UTC day indices (epoch ms divided by 86400000 with floor division, which is
what `Date.prototype.toISOString().slice(0, 10)` induces for an epoch value);
JavaScript `Map`s are association lists; side effects (sent messages, persisted
preferences, Sentry reports, log records) are reified in the result values.
-/

/-! ### Constants (src/core/ai-response.js lines 52-56, core/core.js lines 439-441,
src/handler/commandHandlers.js line 23, src/data/memory.js lines 17-24) -/

def RATE_LIMIT_WINDOW_MS : Int := 20 * 1000

def RATE_LIMIT_MAX_REQUESTS : Nat := 3

def SLEEP_START_HOUR : Nat := 0

def SLEEP_END_HOUR : Nat := 4

def MS_PER_DAY : Int := 1000 * 60 * 60 * 24

def MIN_CHATS_PER_DAY_TO_END_NGAMBEK : Nat := 6

def NGAMBEK_DURATION_DAYS : Nat := 2

def END_NGAMBEK_INTERACTION_DAYS : Nat := 2

def MOOD_TIMEOUT_MS : Int := 2 * 24 * 60 * 60 * 1000

def LTM_CLEANUP_BATCH_SIZE : Nat := 50

/-! ### The cache key (src/core/ai-response.js lines 262-271)

`cacheKey = JSON.stringify({ prompt, topic: messageContext.topic || "no_topic",
personality, mood: currentMood.name, deeptalkMode, ngambekMode,
imageContext: imageDescription || "no_image" })`.

`JSON.stringify` serializes the seven properties in insertion order with no
whitespace; strings are quoted with `"` and `\` escaped as `\"` and `\\`, the
control characters 0x08/0x09/0x0A/0x0C/0x0D as `\b`/`\t`/`\n`/`\f`/`\r`, and the
remaining control characters below 0x20 as `\u00XX` with lowercase hex digits.
All other Unicode scalar values pass through verbatim.  (Lone surrogates, which
ECMAScript escapes as well, do not exist among Lean `Char`s and are outside the
model.) -/

def hexDigitChar : Nat → Char
  | 0 => '0' | 1 => '1' | 2 => '2' | 3 => '3' | 4 => '4'
  | 5 => '5' | 6 => '6' | 7 => '7' | 8 => '8' | 9 => '9'
  | 10 => 'a' | 11 => 'b' | 12 => 'c' | 13 => 'd' | 14 => 'e'
  | _ => 'f'

def jsonEscChar (c : Char) : List Char :=
  if c = '"' then ['\\', '"']
  else if c = '\\' then ['\\', '\\']
  else if c = '\x08' then ['\\', 'b']
  else if c = '\x09' then ['\\', 't']
  else if c = '\x0a' then ['\\', 'n']
  else if c = '\x0c' then ['\\', 'f']
  else if c = '\x0d' then ['\\', 'r']
  else if c.toNat < 32 then ['\\', 'u', '0', '0', hexDigitChar (c.toNat / 16), hexDigitChar (c.toNat % 16)]
  else [c]

def escL : List Char → List Char
  | [] => []
  | c :: cs => jsonEscChar c ++ escL cs

/-- A serialized JSON string component: opening quote, escaped body, closing
quote, followed by the remainder of the serialization. -/
def strComp (s : List Char) (rest : List Char) : List Char :=
  '"' :: (escL s ++ '"' :: rest)

/-- A serialized JSON boolean component followed by the remainder. -/
def boolComp (b : Bool) (rest : List Char) : List Char :=
  (if b then ['t', 'r', 'u', 'e'] else ['f', 'a', 'l', 's', 'e']) ++ rest

def litPrompt : List Char := ['\x7b', '"', 'p', 'r', 'o', 'm', 'p', 't', '"', ':']

def litTopic : List Char := [',', '"', 't', 'o', 'p', 'i', 'c', '"', ':']

def litPersonality : List Char :=
  [',', '"', 'p', 'e', 'r', 's', 'o', 'n', 'a', 'l', 'i', 't', 'y', '"', ':']

def litMood : List Char := [',', '"', 'm', 'o', 'o', 'd', '"', ':']

def litDeeptalk : List Char :=
  [',', '"', 'd', 'e', 'e', 'p', 't', 'a', 'l', 'k', 'M', 'o', 'd', 'e', '"', ':']

def litNgambek : List Char :=
  [',', '"', 'n', 'g', 'a', 'm', 'b', 'e', 'k', 'M', 'o', 'd', 'e', '"', ':']

def litImage : List Char :=
  [',', '"', 'i', 'm', 'a', 'g', 'e', 'C', 'o', 'n', 't', 'e', 'x', 't', '"', ':']

/-- JavaScript `x || sentinel` on an optional string: `null`/`undefined` and the
empty string are falsy and replaced by the sentinel. -/
def orSentinel (o : Option String) (sentinel : String) : String :=
  match o with
  | none => sentinel
  | some s => if s = "" then sentinel else s

def cacheKeyList (prompt topic personality mood : List Char) (deeptalk ngambek : Bool)
    (image : List Char) : List Char :=
  litPrompt ++ strComp prompt
    (litTopic ++ strComp topic
      (litPersonality ++ strComp personality
        (litMood ++ strComp mood
          (litDeeptalk ++ boolComp deeptalk
            (litNgambek ++ boolComp ngambek
              (litImage ++ strComp image ['\x7d']))))))

/-- The cache key of `generateAIResponse` (src/core/ai-response.js lines 262-271):
`JSON.stringify` of the seven context dimensions, with the falsy-coalescing
sentinels `"no_topic"` and `"no_image"` applied to the topic and the image
description. -/
def mkCacheKey (prompt : String) (topic : Option String) (personality mood : String)
    (deeptalk ngambek : Bool) (image : Option String) : String :=
  ⟨cacheKeyList prompt.data (orSentinel topic "no_topic").data personality.data mood.data
    deeptalk ngambek (orSentinel image "no_image").data⟩

/-! ### Injectivity machinery for the cache key -/

def hexVal (c : Char) : Nat :=
  if c.toNat ≤ 57 then c.toNat - 48 else c.toNat - 87

/-- Decoder for the first escape unit of an escaped JSON string body; proof
utility, a left inverse to `jsonEscChar`. -/
def unescHead : List Char → Option (Char × List Char)
  | [] => none
  | c :: r =>
    if c = '"' then none
    else if c = '\\' then
      match r with
      | [] => none
      | e :: r2 =>
        if e = '"' then some ('"', r2)
        else if e = '\\' then some ('\\', r2)
        else if e = 'b' then some ('\x08', r2)
        else if e = 't' then some ('\x09', r2)
        else if e = 'n' then some ('\x0a', r2)
        else if e = 'f' then some ('\x0c', r2)
        else if e = 'r' then some ('\x0d', r2)
        else if e = 'u' then
          match r2 with
          | '0' :: '0' :: h1 :: h2 :: r3 => some (Char.ofNat (hexVal h1 * 16 + hexVal h2), r3)
          | _ => none
        else none
    else some (c, r)

theorem hexVal_hexDigitChar : ∀ k, k < 16 → hexVal (hexDigitChar k) = k := by decide

theorem unescHead_jsonEscChar (c : Char) (x : List Char) :
    unescHead (jsonEscChar c ++ x) = some (c, x) := by
  unfold jsonEscChar
  split_ifs with h1 h2 h3 h4 h5 h6 h7 h8
  · subst h1; rfl
  · subst h2; rfl
  · subst h3; rfl
  · subst h4; rfl
  · subst h5; rfl
  · subst h6; rfl
  · subst h7; rfl
  · show unescHead ('\\' :: 'u' :: '0' :: '0' :: hexDigitChar (c.toNat / 16) ::
        hexDigitChar (c.toNat % 16) :: x) = some (c, x)
    simp [unescHead]
    rw [hexVal_hexDigitChar _ (by omega), hexVal_hexDigitChar _ (by omega)]
    have harg : c.toNat / 16 * 16 + c.toNat % 16 = c.toNat := by omega
    rw [harg, Char.ofNat_toNat]
  · show unescHead (c :: x) = some (c, x)
    simp only [unescHead]
    rw [if_neg h1, if_neg h2]

theorem unescHead_quote (w : List Char) : unescHead ('"' :: w) = none := rfl

theorem escL_append_quote_inj : ∀ {s₁ : List Char} {s₂ : List Char} {r₁ r₂ : List Char},
    escL s₁ ++ '"' :: r₁ = escL s₂ ++ '"' :: r₂ → s₁ = s₂ ∧ r₁ = r₂ := by
  intro s₁
  induction s₁ with
  | nil =>
    intro s₂ r₁ r₂ h
    cases s₂ with
    | nil => simpa using h
    | cons c cs =>
      exfalso
      have h2 := congrArg unescHead h
      rw [show escL [] ++ '"' :: r₁ = '"' :: r₁ from rfl] at h2
      rw [show escL (c :: cs) ++ '"' :: r₂ = jsonEscChar c ++ (escL cs ++ '"' :: r₂) by
        simp [escL]] at h2
      rw [unescHead_quote, unescHead_jsonEscChar] at h2
      exact Option.noConfusion h2
  | cons c cs ih =>
    intro s₂ r₁ r₂ h
    cases s₂ with
    | nil =>
      exfalso
      have h2 := congrArg unescHead h
      rw [show escL [] ++ '"' :: r₂ = '"' :: r₂ from rfl] at h2
      rw [show escL (c :: cs) ++ '"' :: r₁ = jsonEscChar c ++ (escL cs ++ '"' :: r₁) by
        simp [escL]] at h2
      rw [unescHead_jsonEscChar, unescHead_quote] at h2
      exact Option.noConfusion h2
    | cons c₂ cs₂ =>
      have h2 := congrArg unescHead h
      rw [show escL (c :: cs) ++ '"' :: r₁ = jsonEscChar c ++ (escL cs ++ '"' :: r₁) by
        simp [escL]] at h2
      rw [show escL (c₂ :: cs₂) ++ '"' :: r₂ = jsonEscChar c₂ ++ (escL cs₂ ++ '"' :: r₂) by
        simp [escL]] at h2
      rw [unescHead_jsonEscChar, unescHead_jsonEscChar] at h2
      obtain ⟨hc, ht⟩ := Prod.mk.injEq .. ▸ Option.some.injEq .. ▸ h2
      obtain ⟨hs, hr⟩ := ih ht
      exact ⟨by rw [hc, hs], hr⟩

theorem strComp_inj {s₁ s₂ r₁ r₂ : List Char} (h : strComp s₁ r₁ = strComp s₂ r₂) :
    s₁ = s₂ ∧ r₁ = r₂ := by
  unfold strComp at h
  injection h with _ h
  exact escL_append_quote_inj h

theorem boolComp_inj {b₁ b₂ : Bool} {r₁ r₂ : List Char}
    (h : boolComp b₁ r₁ = boolComp b₂ r₂) : b₁ = b₂ ∧ r₁ = r₂ := by
  cases b₁ <;> cases b₂ <;> simp_all [boolComp]

theorem cacheKeyList_inj {p t pe m i p₂ t₂ pe₂ m₂ i₂ : List Char} {d n d₂ n₂ : Bool}
    (h : cacheKeyList p t pe m d n i = cacheKeyList p₂ t₂ pe₂ m₂ d₂ n₂ i₂) :
    p = p₂ ∧ t = t₂ ∧ pe = pe₂ ∧ m = m₂ ∧ d = d₂ ∧ n = n₂ ∧ i = i₂ := by
  unfold cacheKeyList at h
  have h := List.append_cancel_left h
  obtain ⟨hp, h⟩ := strComp_inj h
  have h := List.append_cancel_left h
  obtain ⟨ht, h⟩ := strComp_inj h
  have h := List.append_cancel_left h
  obtain ⟨hpe, h⟩ := strComp_inj h
  have h := List.append_cancel_left h
  obtain ⟨hm, h⟩ := strComp_inj h
  have h := List.append_cancel_left h
  obtain ⟨hd, h⟩ := boolComp_inj h
  have h := List.append_cancel_left h
  obtain ⟨hn, h⟩ := boolComp_inj h
  have h := List.append_cancel_left h
  obtain ⟨hi, _⟩ := strComp_inj h
  exact ⟨hp, ht, hpe, hm, hd, hn, hi⟩

/-- Claim C2: the cache key derived in `generateAIResponse` is a deterministic
function of the seven context dimensions (prompt text, topic-or-sentinel
`"no_topic"`, personality mode, mood name, deep-talk flag, sulk flag,
image-context-or-sentinel `"no_image"`): requests agreeing on all seven
dimensions get the same key; requests differing in any one dimension — in
particular in the active mood name — get different keys. -/
theorem cacheKey_deterministic_and_injective :
    (∀ (p pe m : String) (t i : Option String) (d n : Bool)
       (p₂ pe₂ m₂ : String) (t₂ i₂ : Option String) (d₂ n₂ : Bool),
      p = p₂ → orSentinel t "no_topic" = orSentinel t₂ "no_topic" → pe = pe₂ → m = m₂ →
      d = d₂ → n = n₂ → orSentinel i "no_image" = orSentinel i₂ "no_image" →
      mkCacheKey p t pe m d n i = mkCacheKey p₂ t₂ pe₂ m₂ d₂ n₂ i₂) ∧
    (∀ (p pe m : String) (t i : Option String) (d n : Bool)
       (p₂ pe₂ m₂ : String) (t₂ i₂ : Option String) (d₂ n₂ : Bool),
      mkCacheKey p t pe m d n i = mkCacheKey p₂ t₂ pe₂ m₂ d₂ n₂ i₂ →
      p = p₂ ∧ orSentinel t "no_topic" = orSentinel t₂ "no_topic" ∧ pe = pe₂ ∧ m = m₂ ∧
      d = d₂ ∧ n = n₂ ∧ orSentinel i "no_image" = orSentinel i₂ "no_image") ∧
    (∀ (p pe m m₂ : String) (t i : Option String) (d n : Bool),
      m ≠ m₂ → mkCacheKey p t pe m d n i ≠ mkCacheKey p t pe m₂ d n i) := by
  refine ⟨?_, ?_, ?_⟩
  · intro p pe m t i d n p₂ pe₂ m₂ t₂ i₂ d₂ n₂ hp ht hpe hm hd hn hi
    unfold mkCacheKey
    rw [hp, ht, hpe, hm, hd, hn, hi]
  · intro p pe m t i d n p₂ pe₂ m₂ t₂ i₂ d₂ n₂ h
    have h2 : cacheKeyList p.data (orSentinel t "no_topic").data pe.data m.data d n
        (orSentinel i "no_image").data =
        cacheKeyList p₂.data (orSentinel t₂ "no_topic").data pe₂.data m₂.data d₂ n₂
        (orSentinel i₂ "no_image").data := congrArg String.data h
    obtain ⟨hp, ht, hpe, hm, hd, hn, hi⟩ := cacheKeyList_inj h2
    exact ⟨String.ext hp, String.ext ht, String.ext hpe, String.ext hm, hd, hn, String.ext hi⟩
  · intro p pe m m₂ t i d n hm h
    have h2 : cacheKeyList p.data (orSentinel t "no_topic").data pe.data m.data d n
        (orSentinel i "no_image").data =
        cacheKeyList p.data (orSentinel t "no_topic").data pe.data m₂.data d n
        (orSentinel i "no_image").data := congrArg String.data h
    exact hm (String.ext (cacheKeyList_inj h2).2.2.2.1)

/-- Concrete instances of the three parts of `cacheKey_deterministic_and_injective`:
a request whose topic is absent and one whose topic is the empty string share a
key; two concrete equal keys force equal dimensions; and changing only the mood
name changes the key. -/
theorem cacheKey_deterministic_and_injective_witness :
    (mkCacheKey "halo" none "TSUNDERE" "Happy" false false none =
      mkCacheKey "halo" (some "") "TSUNDERE" "Happy" false false none) ∧
    ("halo" : String) = "halo" ∧
    (mkCacheKey "halo" none "TSUNDERE" "Happy" false false none ≠
      mkCacheKey "halo" none "TSUNDERE" "Sad" false false none) := by
  refine ⟨?_, ?_, ?_⟩
  · exact cacheKey_deterministic_and_injective.1 "halo" "TSUNDERE" "Happy" none none false false
      "halo" "TSUNDERE" "Happy" (some "") none false false rfl rfl rfl rfl rfl rfl rfl
  · exact (cacheKey_deterministic_and_injective.2.1 "halo" "TSUNDERE" "Happy" none none
      false false "halo" "TSUNDERE" "Happy" none none false false rfl).1
  · exact cacheKey_deterministic_and_injective.2.2 "halo" "TSUNDERE" "Happy" "Sad" none none
      false false (by decide)

/-! ### Moods -/

/-- Modelled from the spec: the fixed mood catalogue of `modules/mood.js`, which
is not among the sources.  Spec §3: "Mood: one of a fixed catalogue {NORMAL,
HAPPY, SAD, ANGRY, JEALOUS, LAZY, CALM, LOVING, …}, each carrying a display
label and a presentation glyph".  Identity of a mood is its catalogue key. -/
inductive MoodId
  | NORMAL
  | HAPPY
  | SAD
  | ANGRY
  | JEALOUS
  | LAZY
  | CALM
  | LOVING
deriving DecidableEq, Repr

/-- Modelled from the spec: display labels of the mood catalogue
(`currentMood.name` in the sources). -/
def moodName : MoodId → String
  | .NORMAL => "Normal"
  | .HAPPY => "Happy"
  | .SAD => "Sad"
  | .ANGRY => "Angry"
  | .JEALOUS => "Jealous"
  | .LAZY => "Lazy"
  | .CALM => "Calm"
  | .LOVING => "Loving"

/-- Modelled from the spec: presentation glyphs of the mood catalogue
(`mood.emoji` in the sources). -/
def moodEmoji : MoodId → String
  | .NORMAL => "😐"
  | .HAPPY => "😊"
  | .SAD => "😢"
  | .ANGRY => "😠"
  | .JEALOUS => "😒"
  | .LAZY => "😪"
  | .CALM => "😌"
  | .LOVING => "🥰"

/-! ### generateAIResponse (src/core/ai-response.js lines 218-358)

The function is modelled as a pure step: the ambient mutable state that the
call reads and writes (`globalState.messageCache`, `globalState.userRequestCounts`)
comes in through `GenState`; everything the call samples from collaborators
(clock, Jakarta hour, current mood/personality, global flags, and the outcome
of the Groq inference call) comes in through `GenEnv`; every externally visible
effect (reply string, cache and rate-limit map updates, history appends, Sentry
reports, error logs) is reified in `GenResult`.  The romance-trigger analysis
(lines 231-234) mutates only `loveState`, which no claim concerns, and the
system-prompt assembly (lines 247-260) only builds a string; both are omitted. -/

/-- One value of `globalState.userRequestCounts` (count plus `lastCalled`). -/
structure RateRecord where
  count : Nat
  lastCalled : Int
deriving DecidableEq, Repr

/-- Outcome of `client.chat.completions.create`: a thrown error, or a response
whose `choices[0].message.content` chain is either missing/empty (`none`) or a
string. -/
inductive InfOutcome
  | threw
  | response (content : Option String)
deriving DecidableEq, Repr

structure GenEnv where
  currentHour : Nat
  now : Int
  currentMoodName : String
  currentPersonality : String
  isDeeptalkMode : Bool
  isNgambekMode : Bool
  infOutcome : InfOutcome
deriving DecidableEq, Repr

structure GenState where
  messageCache : List (String × String)
  userRequestCounts : List (Int × RateRecord)
deriving DecidableEq, Repr

structure GenResult where
  reply : String
  messageCache : List (String × String)
  userRequestCounts : List (Int × RateRecord)
  didCacheLookup : Bool
  didRateAccess : Bool
  inferenceCalled : Bool
  historyAppended : List String
  sentryReports : Nat
  errorLogs : Nat
deriving DecidableEq, Repr

def cacheGet (cache : List (String × String)) (k : String) : Option String :=
  (cache.find? (fun e => e.1 = k)).map (fun e => e.2)

def rateGet (m : List (Int × RateRecord)) (k : Int) : Option RateRecord :=
  (m.find? (fun e => e.1 = k)).map (fun e => e.2)

def rateSet (m : List (Int × RateRecord)) (k : Int) (v : RateRecord) :
    List (Int × RateRecord) :=
  (k, v) :: m.filter (fun e => ¬ e.1 = k)

/-- Modelled from the spec: the capacity bound of `manageCache`
(utils/cacheHelper.js is not among the sources; spec §4.2: "the cache is a
bounded mapping with a fixed maximum entry count"). -/
def CACHE_CAPACITY : Nat := 100

/-- Modelled from the spec: `manageCache` of utils/cacheHelper.js (not among the
sources).  Spec §4.2: bounded LRU — (re)inserting a key makes it most recent and
the least recently used entry is evicted beyond capacity; a lookup hit is also
recorded through this function (src/core/ai-response.js line 275). -/
def manageCache (cache : List (String × String)) (k v : String) :
    List (String × String) :=
  ((k, v) :: cache.filter (fun e => ¬ e.1 = k)).take CACHE_CAPACITY

def sleepReply (userName : String) : String :=
  "Zzz... Lumina sedang istirahat, " ++ userName ++ ". Kita lanjutkan nanti ya! " ++
    moodEmoji .LAZY

def busyReply (userName : String) : String :=
  "Lumina lagi sibuk, " ++ userName ++ ". Mohon sabar ya! " ++ moodEmoji .ANGRY

def emptyResponseReply (userName : String) : String :=
  "Maaf, " ++ userName ++ ". Lumina lagi bingung nih, coba tanya lagi dengan cara lain ya. " ++
    moodEmoji .SAD

def apiErrorReply (userName : String) : String :=
  "Maaf, " ++ userName ++ ". Lumina lagi ada gangguan teknis. " ++ moodEmoji .SAD

/-- The `try { ... } catch` block around the Groq call
(src/core/ai-response.js lines 309-357), reached after the rate limiter let the
request through with updated map `rate`. -/
def groqSection (userName cacheKey : String) (env : GenEnv) (cache : List (String × String))
    (rate : List (Int × RateRecord)) : GenResult :=
  match env.infOutcome with
  | .response (some c) =>
    if c = "" then
      { reply := emptyResponseReply userName, messageCache := cache, userRequestCounts := rate,
        didCacheLookup := true, didRateAccess := true, inferenceCalled := true,
        historyAppended := [], sentryReports := 0, errorLogs := 1 }
    else
      let aiResponse := c.trim
      { reply := aiResponse, messageCache := manageCache cache cacheKey aiResponse,
        userRequestCounts := rate, didCacheLookup := true, didRateAccess := true,
        inferenceCalled := true, historyAppended := [aiResponse], sentryReports := 0,
        errorLogs := 0 }
  | .response none =>
    { reply := emptyResponseReply userName, messageCache := cache, userRequestCounts := rate,
      didCacheLookup := true, didRateAccess := true, inferenceCalled := true,
      historyAppended := [], sentryReports := 0, errorLogs := 1 }
  | .threw =>
    { reply := apiErrorReply userName, messageCache := cache, userRequestCounts := rate,
      didCacheLookup := true, didRateAccess := true, inferenceCalled := true,
      historyAppended := [], sentryReports := 1, errorLogs := 1 }

def generateAIResponse (prompt : String) (requestChatId : Int) (topic : Option String)
    (userName : String) (imageDescription : Option String) (env : GenEnv) (st : GenState) :
    GenResult :=
  if SLEEP_START_HOUR ≤ env.currentHour ∧ env.currentHour < SLEEP_END_HOUR then
    { reply := sleepReply userName, messageCache := st.messageCache,
      userRequestCounts := st.userRequestCounts, didCacheLookup := false,
      didRateAccess := false, inferenceCalled := false, historyAppended := [],
      sentryReports := 0, errorLogs := 0 }
  else
    match cacheGet st.messageCache (mkCacheKey prompt topic env.currentPersonality
        env.currentMoodName env.isDeeptalkMode env.isNgambekMode imageDescription) with
    | some cached =>
      { reply := cached,
        messageCache := manageCache st.messageCache (mkCacheKey prompt topic
          env.currentPersonality env.currentMoodName env.isDeeptalkMode env.isNgambekMode
          imageDescription) cached,
        userRequestCounts := st.userRequestCounts, didCacheLookup := true,
        didRateAccess := false, inferenceCalled := false, historyAppended := [],
        sentryReports := 0, errorLogs := 0 }
    | none =>
      match rateGet st.userRequestCounts requestChatId with
      | some userStats =>
        if env.now - userStats.lastCalled < RATE_LIMIT_WINDOW_MS ∧
            RATE_LIMIT_MAX_REQUESTS ≤ userStats.count then
          { reply := busyReply userName, messageCache := st.messageCache,
            userRequestCounts := st.userRequestCounts, didCacheLookup := true,
            didRateAccess := true, inferenceCalled := false, historyAppended := [],
            sentryReports := 0, errorLogs := 0 }
        else if RATE_LIMIT_WINDOW_MS ≤ env.now - userStats.lastCalled then
          groqSection userName (mkCacheKey prompt topic env.currentPersonality
              env.currentMoodName env.isDeeptalkMode env.isNgambekMode imageDescription)
            env st.messageCache
            (rateSet st.userRequestCounts requestChatId ⟨1, env.now⟩)
        else
          groqSection userName (mkCacheKey prompt topic env.currentPersonality
              env.currentMoodName env.isDeeptalkMode env.isNgambekMode imageDescription)
            env st.messageCache
            (rateSet st.userRequestCounts requestChatId ⟨userStats.count + 1, env.now⟩)
      | none =>
        groqSection userName (mkCacheKey prompt topic env.currentPersonality
            env.currentMoodName env.isDeeptalkMode env.isNgambekMode imageDescription)
          env st.messageCache
          (rateSet st.userRequestCounts requestChatId ⟨1, env.now⟩)

/-- The state as left behind by one `generateAIResponse` call. -/
def afterGen (prompt : String) (requestChatId : Int) (topic : Option String)
    (userName : String) (imageDescription : Option String) (env : GenEnv) (st : GenState) :
    GenState :=
  let r := generateAIResponse prompt requestChatId topic userName imageDescription env st
  { messageCache := r.messageCache, userRequestCounts := r.userRequestCounts }

theorem rateGet_rateSet (m : List (Int × RateRecord)) (k : Int) (v : RateRecord) :
    rateGet (rateSet m k v) k = some v := by
  simp [rateGet, rateSet, List.find?]

theorem groqSection_userRequestCounts (userName cacheKey : String) (env : GenEnv)
    (cache : List (String × String)) (rate : List (Int × RateRecord)) :
    (groqSection userName cacheKey env cache rate).userRequestCounts = rate := by
  cases h : env.infOutcome with
  | threw => simp [groqSection, h]
  | response c =>
    cases c with
    | none => simp [groqSection, h]
    | some s =>
      simp only [groqSection, h]
      split <;> rfl

theorem groqSection_inferenceCalled (userName cacheKey : String) (env : GenEnv)
    (cache : List (String × String)) (rate : List (Int × RateRecord)) :
    (groqSection userName cacheKey env cache rate).inferenceCalled = true := by
  cases h : env.infOutcome with
  | threw => simp [groqSection, h]
  | response c =>
    cases c with
    | none => simp [groqSection, h]
    | some s =>
      simp only [groqSection, h]
      split <;> rfl

/-- Claim C7: during the configured sleep window (Jakarta hour at least
`SLEEP_START_HOUR = 0` and below `SLEEP_END_HOUR = 4`, which includes 02:00)
`generateAIResponse` returns the fixed static sleep reply and performs no cache
lookup, no cache write, no rate-limit record read or update, and no inference
call: the sleep check short-circuits before all of that work. -/
theorem sleep_window_short_circuits (prompt : String) (chatId : Int) (topic : Option String)
    (userName : String) (img : Option String) (env : GenEnv) (st : GenState)
    (h : env.currentHour < SLEEP_END_HOUR) :
    generateAIResponse prompt chatId topic userName img env st =
      { reply := sleepReply userName, messageCache := st.messageCache,
        userRequestCounts := st.userRequestCounts, didCacheLookup := false,
        didRateAccess := false, inferenceCalled := false, historyAppended := [],
        sentryReports := 0, errorLogs := 0 } := by
  unfold generateAIResponse
  rw [if_pos ⟨Nat.zero_le _, h⟩]

/-- Instance of `sleep_window_short_circuits` at 02:00 Jakarta time. -/
theorem sleep_window_short_circuits_witness :
    generateAIResponse "halo" 7 none "Tuan" none
      { currentHour := 2, now := 1700000000000, currentMoodName := "Normal",
        currentPersonality := "TSUNDERE", isDeeptalkMode := false, isNgambekMode := false,
        infOutcome := .threw }
      { messageCache := [], userRequestCounts := [] } =
      { reply := sleepReply "Tuan", messageCache := [], userRequestCounts := [],
        didCacheLookup := false, didRateAccess := false, inferenceCalled := false,
        historyAppended := [], sentryReports := 0, errorLogs := 0 } :=
  sleep_window_short_circuits "halo" 7 none "Tuan" none _ _ (by decide)

/-- Claim C10: a request rejected by the rate limiter (window not yet elapsed
since the record's `lastCalled` and count already at the ceiling) returns the
refusal string and leaves the requester's rate-limit record unmodified — the
count is not incremented and the timestamp is not advanced, so a rejected
request never extends or restarts the throttle window. -/
theorem rejected_request_preserves_rate_record (prompt : String) (chatId : Int)
    (topic : Option String) (userName : String) (img : Option String) (env : GenEnv)
    (st : GenState) (stats : RateRecord)
    (hh : SLEEP_END_HOUR ≤ env.currentHour)
    (hm : cacheGet st.messageCache (mkCacheKey prompt topic env.currentPersonality
      env.currentMoodName env.isDeeptalkMode env.isNgambekMode img) = none)
    (hr : rateGet st.userRequestCounts chatId = some stats)
    (hw : env.now - stats.lastCalled < RATE_LIMIT_WINDOW_MS)
    (hc : RATE_LIMIT_MAX_REQUESTS ≤ stats.count) :
    generateAIResponse prompt chatId topic userName img env st =
      { reply := busyReply userName, messageCache := st.messageCache,
        userRequestCounts := st.userRequestCounts, didCacheLookup := true,
        didRateAccess := true, inferenceCalled := false, historyAppended := [],
        sentryReports := 0, errorLogs := 0 } := by
  unfold generateAIResponse
  rw [if_neg (by simp only [SLEEP_START_HOUR, SLEEP_END_HOUR] at *; omega), hm]
  simp only []
  rw [hr]
  simp only []
  rw [if_pos ⟨hw, hc⟩]

/-- Instance of `rejected_request_preserves_rate_record`: a fourth request 5
seconds into a window whose record already counts 3. -/
theorem rejected_request_preserves_rate_record_witness :
    generateAIResponse "halo" 7 none "Tuan" none
      { currentHour := 10, now := 5000, currentMoodName := "Normal",
        currentPersonality := "TSUNDERE", isDeeptalkMode := false, isNgambekMode := false,
        infOutcome := .threw }
      { messageCache := [], userRequestCounts := [(7, ⟨3, 0⟩)] } =
      { reply := busyReply "Tuan", messageCache := [],
        userRequestCounts := [(7, ⟨3, 0⟩)], didCacheLookup := true, didRateAccess := true,
        inferenceCalled := false, historyAppended := [], sentryReports := 0,
        errorLogs := 0 } :=
  rejected_request_preserves_rate_record "halo" 7 none "Tuan" none _ _ ⟨3, 0⟩
    (by decide) (by decide) (by decide) (by decide) (by decide)

theorem groqSection_failure (userName cacheKey : String) (env : GenEnv)
    (cache : List (String × String)) (rate : List (Int × RateRecord))
    (hfail : env.infOutcome = .threw ∨ env.infOutcome = .response none ∨
      env.infOutcome = .response (some "")) :
    ((groqSection userName cacheKey env cache rate).reply = apiErrorReply userName ∨
      (groqSection userName cacheKey env cache rate).reply = emptyResponseReply userName) ∧
    (groqSection userName cacheKey env cache rate).messageCache = cache ∧
    (groqSection userName cacheKey env cache rate).historyAppended = [] ∧
    1 ≤ (groqSection userName cacheKey env cache rate).errorLogs ∧
    (env.infOutcome = .threw →
      (groqSection userName cacheKey env cache rate).reply = apiErrorReply userName ∧
      1 ≤ (groqSection userName cacheKey env cache rate).sentryReports) := by
  rcases hfail with h | h | h <;> simp [groqSection, h]

/-- Claim C3: whenever the Groq inference call fails — it throws, or the
response carries no non-empty `choices[0].message.content` — and the call was
actually attempted, `generateAIResponse` returns one of the two fixed graceful
fallback strings (and the fixed technical-problem string with at least one
Sentry report in the thrown case), logs the error, writes nothing to the
response cache, and appends no assistant message to history; no raw error
escapes to the caller. -/
theorem inference_failure_handling (prompt : String) (chatId : Int) (topic : Option String)
    (userName : String) (img : Option String) (env : GenEnv) (st : GenState)
    (hfail : env.infOutcome = .threw ∨ env.infOutcome = .response none ∨
      env.infOutcome = .response (some "")) :
    (generateAIResponse prompt chatId topic userName img env st).inferenceCalled = true →
      ((generateAIResponse prompt chatId topic userName img env st).reply =
          apiErrorReply userName ∨
        (generateAIResponse prompt chatId topic userName img env st).reply =
          emptyResponseReply userName) ∧
      (generateAIResponse prompt chatId topic userName img env st).messageCache =
        st.messageCache ∧
      (generateAIResponse prompt chatId topic userName img env st).historyAppended = [] ∧
      1 ≤ (generateAIResponse prompt chatId topic userName img env st).errorLogs ∧
      (env.infOutcome = .threw →
        (generateAIResponse prompt chatId topic userName img env st).reply =
          apiErrorReply userName ∧
        1 ≤ (generateAIResponse prompt chatId topic userName img env st).sentryReports) := by
  unfold generateAIResponse
  split
  · intro hinf; cases hinf
  · split
    · intro hinf; cases hinf
    · split
      · split
        · intro hinf; cases hinf
        · split
          · intro _; exact groqSection_failure userName _ env st.messageCache _ hfail
          · intro _; exact groqSection_failure userName _ env st.messageCache _ hfail
      · intro _; exact groqSection_failure userName _ env st.messageCache _ hfail

/-- Instance of `inference_failure_handling`: a thrown Groq error on a fresh
state outside the sleep window. -/
theorem inference_failure_handling_witness :
    ((generateAIResponse "halo" 7 none "Tuan" none
        { currentHour := 10, now := 0, currentMoodName := "Normal",
          currentPersonality := "TSUNDERE", isDeeptalkMode := false, isNgambekMode := false,
          infOutcome := .threw }
        { messageCache := [], userRequestCounts := [] }).reply = apiErrorReply "Tuan" ∨
      (generateAIResponse "halo" 7 none "Tuan" none
        { currentHour := 10, now := 0, currentMoodName := "Normal",
          currentPersonality := "TSUNDERE", isDeeptalkMode := false, isNgambekMode := false,
          infOutcome := .threw }
        { messageCache := [], userRequestCounts := [] }).reply = emptyResponseReply "Tuan") ∧
    (generateAIResponse "halo" 7 none "Tuan" none
      { currentHour := 10, now := 0, currentMoodName := "Normal",
        currentPersonality := "TSUNDERE", isDeeptalkMode := false, isNgambekMode := false,
        infOutcome := .threw }
      { messageCache := [], userRequestCounts := [] }).messageCache = [] ∧
    (generateAIResponse "halo" 7 none "Tuan" none
      { currentHour := 10, now := 0, currentMoodName := "Normal",
        currentPersonality := "TSUNDERE", isDeeptalkMode := false, isNgambekMode := false,
        infOutcome := .threw }
      { messageCache := [], userRequestCounts := [] }).historyAppended = [] ∧
    1 ≤ (generateAIResponse "halo" 7 none "Tuan" none
      { currentHour := 10, now := 0, currentMoodName := "Normal",
        currentPersonality := "TSUNDERE", isDeeptalkMode := false, isNgambekMode := false,
        infOutcome := .threw }
      { messageCache := [], userRequestCounts := [] }).errorLogs ∧
    ((generateAIResponse "halo" 7 none "Tuan" none
        { currentHour := 10, now := 0, currentMoodName := "Normal",
          currentPersonality := "TSUNDERE", isDeeptalkMode := false, isNgambekMode := false,
          infOutcome := .threw }
        { messageCache := [], userRequestCounts := [] }).reply = apiErrorReply "Tuan" ∧
      1 ≤ (generateAIResponse "halo" 7 none "Tuan" none
        { currentHour := 10, now := 0, currentMoodName := "Normal",
          currentPersonality := "TSUNDERE", isDeeptalkMode := false, isNgambekMode := false,
          infOutcome := .threw }
        { messageCache := [], userRequestCounts := [] }).sentryReports) := by
  have h := inference_failure_handling "halo" 7 none "Tuan" none
    { currentHour := 10, now := 0, currentMoodName := "Normal",
      currentPersonality := "TSUNDERE", isDeeptalkMode := false, isNgambekMode := false,
      infOutcome := .threw }
    { messageCache := [], userRequestCounts := [] } (Or.inl rfl) rfl
  exact ⟨h.1, h.2.1, h.2.2.1, h.2.2.2.1, h.2.2.2.2 rfl⟩

/-- The argument bundle of one `generateAIResponse` call (per-call prompt, topic,
image context, and sampled environment). -/
structure CallSpec where
  prompt : String
  topic : Option String
  image : Option String
  env : GenEnv
deriving Repr

def callKey (a : CallSpec) : String :=
  mkCacheKey a.prompt a.topic a.env.currentPersonality a.env.currentMoodName
    a.env.isDeeptalkMode a.env.isNgambekMode a.image

def doCall (chatId : Int) (userName : String) (a : CallSpec) (st : GenState) : GenResult :=
  generateAIResponse a.prompt chatId a.topic userName a.image a.env st

def stepCall (chatId : Int) (userName : String) (a : CallSpec) (st : GenState) : GenState :=
  afterGen a.prompt chatId a.topic userName a.image a.env st

theorem gen_proceed_none (chatId : Int) (userName : String) (a : CallSpec) (st : GenState)
    (hh : SLEEP_END_HOUR ≤ a.env.currentHour)
    (hm : cacheGet st.messageCache (callKey a) = none)
    (h0 : rateGet st.userRequestCounts chatId = none) :
    doCall chatId userName a st =
      groqSection userName (callKey a) a.env st.messageCache
        (rateSet st.userRequestCounts chatId ⟨1, a.env.now⟩) := by
  unfold doCall generateAIResponse
  unfold callKey at hm
  rw [if_neg (by simp only [SLEEP_START_HOUR, SLEEP_END_HOUR] at *; omega), hm]
  simp only []
  rw [h0]
  rfl

theorem gen_proceed_accept (chatId : Int) (userName : String) (a : CallSpec) (st : GenState)
    (stats : RateRecord)
    (hh : SLEEP_END_HOUR ≤ a.env.currentHour)
    (hm : cacheGet st.messageCache (callKey a) = none)
    (hr : rateGet st.userRequestCounts chatId = some stats)
    (hw : a.env.now - stats.lastCalled < RATE_LIMIT_WINDOW_MS)
    (hcl : stats.count < RATE_LIMIT_MAX_REQUESTS) :
    doCall chatId userName a st =
      groqSection userName (callKey a) a.env st.messageCache
        (rateSet st.userRequestCounts chatId ⟨stats.count + 1, a.env.now⟩) := by
  unfold doCall generateAIResponse
  unfold callKey at hm
  rw [if_neg (by simp only [SLEEP_START_HOUR, SLEEP_END_HOUR] at *; omega), hm]
  simp only []
  rw [hr]
  simp only []
  rw [if_neg (fun hand => absurd hand.2 (by omega)), if_neg (by omega)]
  rfl

theorem gen_proceed_rollover (chatId : Int) (userName : String) (a : CallSpec) (st : GenState)
    (stats : RateRecord)
    (hh : SLEEP_END_HOUR ≤ a.env.currentHour)
    (hm : cacheGet st.messageCache (callKey a) = none)
    (hr : rateGet st.userRequestCounts chatId = some stats)
    (hge : RATE_LIMIT_WINDOW_MS ≤ a.env.now - stats.lastCalled) :
    doCall chatId userName a st =
      groqSection userName (callKey a) a.env st.messageCache
        (rateSet st.userRequestCounts chatId ⟨1, a.env.now⟩) := by
  unfold doCall generateAIResponse
  unfold callKey at hm
  rw [if_neg (by simp only [SLEEP_START_HOUR, SLEEP_END_HOUR] at *; omega), hm]
  simp only []
  rw [hr]
  simp only []
  rw [if_neg (fun hand => absurd hand.1 (by omega)), if_pos hge]
  rfl

theorem gen_reject (chatId : Int) (userName : String) (a : CallSpec) (st : GenState)
    (stats : RateRecord)
    (hh : SLEEP_END_HOUR ≤ a.env.currentHour)
    (hm : cacheGet st.messageCache (callKey a) = none)
    (hr : rateGet st.userRequestCounts chatId = some stats)
    (hw : a.env.now - stats.lastCalled < RATE_LIMIT_WINDOW_MS)
    (hc : RATE_LIMIT_MAX_REQUESTS ≤ stats.count) :
    doCall chatId userName a st =
      { reply := busyReply userName, messageCache := st.messageCache,
        userRequestCounts := st.userRequestCounts, didCacheLookup := true,
        didRateAccess := true, inferenceCalled := false, historyAppended := [],
        sentryReports := 0, errorLogs := 0 } :=
  rejected_request_preserves_rate_record a.prompt chatId a.topic userName a.image a.env st
    stats hh hm hr hw hc

theorem stepCall_rate (chatId : Int) (userName : String) (a : CallSpec) (st : GenState)
    (rate : List (Int × RateRecord))
    (h : doCall chatId userName a st =
      groqSection userName (callKey a) a.env st.messageCache rate) :
    (stepCall chatId userName a st).userRequestCounts = rate := by
  unfold stepCall afterGen
  show (doCall chatId userName a st).userRequestCounts = rate
  rw [h, groqSection_userRequestCounts]

/-- Claim C1: the rate limiter is a hard window.  Part 1: for a requester with
no prior record, four cache-missing calls issued within one 20-second window
(all outside the sleep hours) leave the first three un-throttled, and the
fourth — the (ceiling+1)-th — returns the immediate busy-refusal string without
calling inference and without touching the rate record (no queueing, no retry).
Part 2: a single request issued once the window has elapsed since the record's
`lastCalled` is NOT throttled and the requester's counter is reset to 1 for the
new window (hard window, no gradual decay). -/
theorem rate_limit_hard_window (chatId : Int) (userName : String)
    (a₁ a₂ a₃ a₄ : CallSpec) (st : GenState)
    (hh₁ : SLEEP_END_HOUR ≤ a₁.env.currentHour) (hh₂ : SLEEP_END_HOUR ≤ a₂.env.currentHour)
    (hh₃ : SLEEP_END_HOUR ≤ a₃.env.currentHour) (hh₄ : SLEEP_END_HOUR ≤ a₄.env.currentHour)
    (ht₁₂ : a₁.env.now ≤ a₂.env.now) (ht₂₃ : a₂.env.now ≤ a₃.env.now)
    (ht₃₄ : a₃.env.now ≤ a₄.env.now)
    (hwin : a₄.env.now - a₁.env.now < RATE_LIMIT_WINDOW_MS)
    (h0 : rateGet st.userRequestCounts chatId = none)
    (hm₁ : cacheGet st.messageCache (callKey a₁) = none)
    (hm₂ : cacheGet (stepCall chatId userName a₁ st).messageCache (callKey a₂) = none)
    (hm₃ : cacheGet (stepCall chatId userName a₂
      (stepCall chatId userName a₁ st)).messageCache (callKey a₃) = none)
    (hm₄ : cacheGet (stepCall chatId userName a₃ (stepCall chatId userName a₂
      (stepCall chatId userName a₁ st))).messageCache (callKey a₄) = none) :
    ((doCall chatId userName a₁ st).inferenceCalled = true ∧
      (doCall chatId userName a₂ (stepCall chatId userName a₁ st)).inferenceCalled = true ∧
      (doCall chatId userName a₃ (stepCall chatId userName a₂
        (stepCall chatId userName a₁ st))).inferenceCalled = true ∧
      doCall chatId userName a₄ (stepCall chatId userName a₃ (stepCall chatId userName a₂
        (stepCall chatId userName a₁ st))) =
        { reply := busyReply userName,
          messageCache := (stepCall chatId userName a₃ (stepCall chatId userName a₂
            (stepCall chatId userName a₁ st))).messageCache,
          userRequestCounts := (stepCall chatId userName a₃ (stepCall chatId userName a₂
            (stepCall chatId userName a₁ st))).userRequestCounts,
          didCacheLookup := true, didRateAccess := true, inferenceCalled := false,
          historyAppended := [], sentryReports := 0, errorLogs := 0 }) ∧
    (∀ (a₅ : CallSpec) (st₅ : GenState) (stats : RateRecord),
      SLEEP_END_HOUR ≤ a₅.env.currentHour →
      rateGet st₅.userRequestCounts chatId = some stats →
      RATE_LIMIT_WINDOW_MS ≤ a₅.env.now - stats.lastCalled →
      cacheGet st₅.messageCache (callKey a₅) = none →
      (doCall chatId userName a₅ st₅).inferenceCalled = true ∧
      rateGet (doCall chatId userName a₅ st₅).userRequestCounts chatId =
        some ⟨1, a₅.env.now⟩) := by
  have e₁ := gen_proceed_none chatId userName a₁ st hh₁ hm₁ h0
  have r₁ : (stepCall chatId userName a₁ st).userRequestCounts =
      rateSet st.userRequestCounts chatId ⟨1, a₁.env.now⟩ :=
    stepCall_rate chatId userName a₁ st _ e₁
  have g₁ : rateGet (stepCall chatId userName a₁ st).userRequestCounts chatId =
      some ⟨1, a₁.env.now⟩ := by rw [r₁, rateGet_rateSet]
  have e₂ := gen_proceed_accept chatId userName a₂ (stepCall chatId userName a₁ st)
    ⟨1, a₁.env.now⟩ hh₂ hm₂ g₁
    (by change a₂.env.now - a₁.env.now < RATE_LIMIT_WINDOW_MS; omega)
    (by simp [RATE_LIMIT_MAX_REQUESTS])
  have r₂ := stepCall_rate chatId userName a₂ (stepCall chatId userName a₁ st) _ e₂
  have g₂ : rateGet (stepCall chatId userName a₂
      (stepCall chatId userName a₁ st)).userRequestCounts chatId =
      some ⟨2, a₂.env.now⟩ := by rw [r₂, rateGet_rateSet]
  have e₃ := gen_proceed_accept chatId userName a₃
    (stepCall chatId userName a₂ (stepCall chatId userName a₁ st))
    ⟨2, a₂.env.now⟩ hh₃ hm₃ g₂
    (by change a₃.env.now - a₂.env.now < RATE_LIMIT_WINDOW_MS; omega)
    (by simp [RATE_LIMIT_MAX_REQUESTS])
  have r₃ := stepCall_rate chatId userName a₃
    (stepCall chatId userName a₂ (stepCall chatId userName a₁ st)) _ e₃
  have g₃ : rateGet (stepCall chatId userName a₃ (stepCall chatId userName a₂
      (stepCall chatId userName a₁ st))).userRequestCounts chatId =
      some ⟨3, a₃.env.now⟩ := by rw [r₃, rateGet_rateSet]
  have e₄ := gen_reject chatId userName a₄
    (stepCall chatId userName a₃ (stepCall chatId userName a₂
      (stepCall chatId userName a₁ st)))
    ⟨3, a₃.env.now⟩ hh₄ hm₄ g₃
    (by change a₄.env.now - a₃.env.now < RATE_LIMIT_WINDOW_MS; omega)
    (by simp [RATE_LIMIT_MAX_REQUESTS])
  refine ⟨⟨?_, ?_, ?_, e₄⟩, ?_⟩
  · rw [e₁, groqSection_inferenceCalled]
  · rw [e₂, groqSection_inferenceCalled]
  · rw [e₃, groqSection_inferenceCalled]
  · intro a₅ st₅ stats hh₅ hr₅ hge₅ hm₅
    have e₅ := gen_proceed_rollover chatId userName a₅ st₅ stats hh₅ hm₅ hr₅ hge₅
    constructor
    · rw [e₅, groqSection_inferenceCalled]
    · rw [e₅, groqSection_userRequestCounts, rateGet_rateSet]

/-- Concrete call bundle used to instantiate `rate_limit_hard_window`. -/
def c1spec (p : String) (t : Int) : CallSpec :=
  { prompt := p, topic := none, image := none,
    env := { currentHour := 10, now := t, currentMoodName := "Normal",
             currentPersonality := "TSUNDERE", isDeeptalkMode := false,
             isNgambekMode := false, infOutcome := .threw } }

/-- Instance of `rate_limit_hard_window`: four requests at 0 s, 1 s, 2 s and 3 s
into a window, plus a rollover request 25 s after a full record. -/
theorem rate_limit_hard_window_witness :
    ((doCall 7 "Tuan" (c1spec "p1" 0) ⟨[], []⟩).inferenceCalled = true ∧
      (doCall 7 "Tuan" (c1spec "p2" 1000)
        (stepCall 7 "Tuan" (c1spec "p1" 0) ⟨[], []⟩)).inferenceCalled = true ∧
      (doCall 7 "Tuan" (c1spec "p3" 2000) (stepCall 7 "Tuan" (c1spec "p2" 1000)
        (stepCall 7 "Tuan" (c1spec "p1" 0) ⟨[], []⟩))).inferenceCalled = true ∧
      doCall 7 "Tuan" (c1spec "p4" 3000) (stepCall 7 "Tuan" (c1spec "p3" 2000)
        (stepCall 7 "Tuan" (c1spec "p2" 1000)
          (stepCall 7 "Tuan" (c1spec "p1" 0) ⟨[], []⟩))) =
        { reply := busyReply "Tuan",
          messageCache := (stepCall 7 "Tuan" (c1spec "p3" 2000)
            (stepCall 7 "Tuan" (c1spec "p2" 1000)
              (stepCall 7 "Tuan" (c1spec "p1" 0) ⟨[], []⟩))).messageCache,
          userRequestCounts := (stepCall 7 "Tuan" (c1spec "p3" 2000)
            (stepCall 7 "Tuan" (c1spec "p2" 1000)
              (stepCall 7 "Tuan" (c1spec "p1" 0) ⟨[], []⟩))).userRequestCounts,
          didCacheLookup := true, didRateAccess := true, inferenceCalled := false,
          historyAppended := [], sentryReports := 0, errorLogs := 0 }) ∧
    ((doCall 7 "Tuan" (c1spec "p5" 25000) ⟨[], [(7, ⟨3, 0⟩)]⟩).inferenceCalled = true ∧
      rateGet (doCall 7 "Tuan" (c1spec "p5" 25000)
        ⟨[], [(7, ⟨3, 0⟩)]⟩).userRequestCounts 7 = some ⟨1, 25000⟩) :=
  ⟨(rate_limit_hard_window 7 "Tuan" (c1spec "p1" 0) (c1spec "p2" 1000) (c1spec "p3" 2000)
      (c1spec "p4" 3000) ⟨[], []⟩ (by decide) (by decide) (by decide) (by decide)
      (by decide) (by decide) (by decide) (by decide) rfl rfl rfl rfl rfl).1,
    (rate_limit_hard_window 7 "Tuan" (c1spec "p1" 0) (c1spec "p2" 1000) (c1spec "p3" 2000)
      (c1spec "p4" 3000) ⟨[], []⟩ (by decide) (by decide) (by decide) (by decide)
      (by decide) (by decide) (by decide) (by decide) rfl rfl rfl rfl rfl).2
      (c1spec "p5" 25000) ⟨[], [(7, ⟨3, 0⟩)]⟩ ⟨3, 0⟩ (by decide) rfl (by decide) rfl⟩

/-! ### setMood and getRandomMood (src/handler/commandHandlers.js lines 126-155)

The pending revert timer (`moodTimeoutId` plus its `setTimeout`) is modelled as
an optional deadline `moodTimeout = some (now + durationMs)`; `clearTimeout`
is `moodTimeout := none`.  The mood-change broadcast `sendMessage(chatId, ...)`
is reified as a `SinkMsg.moodChanged` event, emitted only when `chatId` is
truthy, exactly as in the source. -/

structure MoodState where
  currentMood : MoodId
  moodTimeout : Option Int
deriving DecidableEq, Repr

/-- Messages pushed through the `sendMessage` sink by the mood and sulk logic,
tagged by which source-line text was sent. -/
inductive SinkMsg
  | moodChanged (m : MoodId)
  | ngambekEntered (diffDays : Nat)
  | ngambekEnded
deriving DecidableEq, Repr

/-- `setMood(chatId, newMood, durationMs)`: always clears the pending revert
timer first; changes the mood and broadcasts only when the new mood differs;
schedules a fresh revert-to-NORMAL deadline unless the new mood is sticky
(`NORMAL` or `CALM`). -/
def setMood (now : Int) (chatId : Option Int) (newMood : MoodId) (durationMs : Int)
    (st : MoodState) : MoodState × List SinkMsg :=
  let st1 : MoodState := { st with moodTimeout := none }
  let changed : MoodState × List SinkMsg :=
    if st1.currentMood ≠ newMood then
      ({ st1 with currentMood := newMood },
        match chatId with
        | some _ => [SinkMsg.moodChanged newMood]
        | none => [])
    else (st1, [])
  let st2 := changed.1
  if newMood ≠ MoodId.NORMAL ∧ newMood ≠ MoodId.CALM then
    ({ st2 with moodTimeout := some (now + durationMs) }, changed.2)
  else (st2, changed.2)

/-- Modelled from the spec where the catalogue order is concerned: the mood
catalogue (`Object.values(Mood)`) in the spec's order, without `CALM`
(src/handler/commandHandlers.js line 152 filters `CALM` out). -/
def moodsWithoutCalm : List MoodId :=
  [MoodId.NORMAL, MoodId.HAPPY, MoodId.SAD, MoodId.ANGRY, MoodId.JEALOUS,
   MoodId.LAZY, MoodId.LOVING]

/-- `getRandomMood` (src/handler/commandHandlers.js lines 150-155):
`Math.floor(Math.random() * moods.length)` yields an index below the list
length; the random draw is modelled by an arbitrary natural `r` taken modulo
the length. -/
def getRandomMood (r : Nat) : MoodId :=
  moodsWithoutCalm.getD (r % moodsWithoutCalm.length) MoodId.NORMAL

theorem moodId_getD_mem_or (l : List MoodId) (i : Nat) (d : MoodId) :
    l.getD i d ∈ l ∨ l.getD i d = d := by
  induction l generalizing i with
  | nil => right; simp [List.getD]
  | cons x xs ih =>
    cases i with
    | zero => left; simp [List.getD]
    | succ j =>
      rcases ih j with h | h
      · left
        simp only [List.getD] at h ⊢
        exact List.mem_cons_of_mem _ (by simpa using h)
      · right
        simpa [List.getD] using h

theorem getRandomMood_ne_CALM (r : Nat) : getRandomMood r ≠ MoodId.CALM := by
  unfold getRandomMood
  rcases moodId_getD_mem_or moodsWithoutCalm (r % moodsWithoutCalm.length) MoodId.NORMAL
    with h | h
  · intro hc
    rw [hc] at h
    simp [moodsWithoutCalm] at h
  · rw [h]
    intro hc
    cases hc

/-- Claim C9 counterexample: a `setMood` call whose new mood equals the current
mood is NOT a complete no-op — the pending revert timer (deadline 100) is
cancelled and rescheduled to the fresh deadline `now + durationMs = 250`, so the
observable timer state changes even though the mood and the notifications do
not. -/
theorem setMood_equal_mood_not_noop :
    (⟨MoodId.HAPPY, some 100⟩ : MoodState).currentMood = MoodId.HAPPY ∧
    (setMood 200 (some 1) MoodId.HAPPY 50 ⟨MoodId.HAPPY, some 100⟩).1.moodTimeout =
      some 250 ∧
    (setMood 200 (some 1) MoodId.HAPPY 50 ⟨MoodId.HAPPY, some 100⟩).1 ≠
      (⟨MoodId.HAPPY, some 100⟩ : MoodState) := by
  decide

/-- Claim C9 (amended): a `setMood` call with the new mood equal to the current
mood leaves the mood unchanged and sends no mood-change notification, but it
still cancels the pending revert timer and, unless the new mood is sticky,
reschedules it for the new duration.  In all cases at most one revert timer is
pending afterwards: none when the new mood is in the sticky subset
{NORMAL, CALM}, exactly the fresh deadline `now + durationMs` otherwise. -/
theorem setMood_spec (now durationMs : Int) (chatId : Option Int) (newMood : MoodId)
    (st : MoodState) :
    (st.currentMood = newMood →
      (setMood now chatId newMood durationMs st).1.currentMood = st.currentMood ∧
      (setMood now chatId newMood durationMs st).2 = []) ∧
    ((newMood = MoodId.NORMAL ∨ newMood = MoodId.CALM) →
      (setMood now chatId newMood durationMs st).1.moodTimeout = none) ∧
    (¬(newMood = MoodId.NORMAL ∨ newMood = MoodId.CALM) →
      (setMood now chatId newMood durationMs st).1.moodTimeout = some (now + durationMs)) := by
  refine ⟨fun he => ?_, fun hs => ?_, fun hns => ?_⟩
  · unfold setMood
    split_ifs <;> simp_all
  · unfold setMood
    have houter : ¬(newMood ≠ MoodId.NORMAL ∧ newMood ≠ MoodId.CALM) := by
      rcases hs with h | h <;> simp [h]
    rw [if_neg houter]
    split <;> rfl
  · unfold setMood
    rw [if_pos ⟨fun h => hns (Or.inl h), fun h => hns (Or.inr h)⟩]

/-- Instances of the three parts of `setMood_spec`: an equal-mood call keeps the
mood and emits nothing; a sticky target leaves no pending timer; a non-sticky
target leaves exactly the fresh deadline. -/
theorem setMood_spec_witness :
    ((setMood 200 (some 1) MoodId.HAPPY 50 ⟨MoodId.HAPPY, some 100⟩).1.currentMood =
        MoodId.HAPPY ∧
      (setMood 200 (some 1) MoodId.HAPPY 50 ⟨MoodId.HAPPY, some 100⟩).2 = []) ∧
    (setMood 0 none MoodId.NORMAL 5 ⟨MoodId.SAD, some 3⟩).1.moodTimeout = none ∧
    (setMood 10 none MoodId.SAD 5 ⟨MoodId.HAPPY, some 3⟩).1.moodTimeout = some 15 :=
  ⟨(setMood_spec 200 50 (some 1) MoodId.HAPPY ⟨MoodId.HAPPY, some 100⟩).1 rfl,
    (setMood_spec 0 5 none MoodId.NORMAL ⟨MoodId.SAD, some 3⟩).2.1 (Or.inl rfl),
    (setMood_spec 10 5 none MoodId.SAD ⟨MoodId.HAPPY, some 3⟩).2.2 (by simp)⟩

/-! ### Feature flags (src/config/featureConfig.js) -/

def isFeatureEnabled (featureName : String) : Bool :=
  if featureName = "ENABLE_NGAMBEK_MODE" then true
  else if featureName = "ENABLE_AI_VISION" then true
  else if featureName = "ENABLE_DOC_HANDLER" then true
  else if featureName = "ENABLE_CRON_JOBS" then true
  else if featureName = "ENABLE_ROMANCE_MODE" then true
  else if featureName = "ENABLE_RELATIONSHIP_POINTS" then true
  else if featureName = "ENABLE_LTM" then true
  else if featureName = "ENABLE_TTS_REMINDER" then true
  else if featureName = "ENABLE_HOLIDAYS_REMINDER" then true
  else if featureName = "ENABLE_DAILY_NEWS" then true
  else if featureName = "ENABLE_SONGS_NOTIFIER" then true
  else false

/-! ### checkNgambekStatus (core/core.js lines 501-588)

State read and written by the sulk evaluation: the sulk flag, the
last-interaction timestamp (never written by this function), the daily chat
count map keyed by calendar day, and the mood state (written through
`setMood`).  `new Date().toISOString().slice(0, 10)` keys are modelled as UTC
day indices `t / MS_PER_DAY` (floor division); `d.setDate(now.getDate() - i)`
subtracts exactly `i` days (the deployment timezone, Asia/Jakarta, has no DST),
so the checked keys are `dayOf now - i` and the prune cutoff `twoDaysAgo` is
`now - (NGAMBEK_DURATION_DAYS + 1) * MS_PER_DAY`; `new Date("YYYY-MM-DD")` is
the UTC midnight `d * MS_PER_DAY` of a key `d`. -/

structure SulkState where
  isNgambekMode : Bool
  lastInteractionTimestamp : Option Int
  dailyChatCounts : List (Int × Nat)
  mood : MoodState
deriving DecidableEq, Repr

/-- A `memory.savePreference` call made by the sulk evaluation. -/
inductive PrefWrite
  | ngambekFlag (b : Bool)
  | counts (m : List (Int × Nat))
deriving DecidableEq, Repr

structure NgambekResult where
  state : SulkState
  messages : List SinkMsg
  prefWrites : List PrefWrite
deriving DecidableEq, Repr

def dayOf (t : Int) : Int := t / MS_PER_DAY

/-- `globalState.dailyChatCounts[dateStr] || 0`. -/
def countOn (m : List (Int × Nat)) (d : Int) : Nat :=
  ((m.find? (fun e => e.1 = d)).map (fun e => e.2)).getD 0

/-- `Math.ceil(Math.abs(now - lastInteractionDate) / (1000*60*60*24))`. -/
def diffDaysOf (now last : Int) : Nat :=
  ((now - last).natAbs + 86400000 - 1) / 86400000

/-- The prune predicate of the final cleanup loop: delete the entry for day `d`
when `new Date(d) < twoDaysAgo`, i.e. the key's UTC midnight is before
`now - 3` days. -/
def pruneOld (now : Int) (m : List (Int × Nat)) : List (Int × Nat) :=
  m.filter (fun e => ¬ e.1 * MS_PER_DAY < now - (NGAMBEK_DURATION_DAYS + 1) * MS_PER_DAY)

/-- The sulk-entry phase (core/core.js lines 519-537): when not already sulking
and a last-interaction timestamp exists, enters sulk if the ceiling of elapsed
days is at least `NGAMBEK_DURATION_DAYS`, forcing the mood to `JEALOUS`,
persisting the flag and sending the sulk notification. -/
def ngambekEntry (now chatId : Int) (st : SulkState) :
    SulkState × List SinkMsg × List PrefWrite :=
  match st.isNgambekMode, st.lastInteractionTimestamp with
  | false, some last =>
    if NGAMBEK_DURATION_DAYS ≤ diffDaysOf now last then
      let moodStep := setMood now (some chatId) MoodId.JEALOUS MOOD_TIMEOUT_MS st.mood
      ({ st with isNgambekMode := true, mood := moodStep.1 },
        moodStep.2 ++ [SinkMsg.ngambekEntered (diffDaysOf now last)],
        [PrefWrite.ngambekFlag true])
    else (st, [], [])
  | _, _ => (st, [], [])

/-- The exit criterion (core/core.js lines 542-557): each of the last
`END_NGAMBEK_INTERACTION_DAYS` calendar days, today included, has at least
`MIN_CHATS_PER_DAY_TO_END_NGAMBEK` chats. -/
def hasSufficientInteraction (now : Int) (m : List (Int × Nat)) : Bool :=
  (List.range END_NGAMBEK_INTERACTION_DAYS).all
    (fun i => decide (MIN_CHATS_PER_DAY_TO_END_NGAMBEK ≤ countOn m (dayOf now - i)))

/-- The sulk-exit phase (core/core.js lines 540-577): when sulking and the
interaction criterion holds, clears the flag, randomizes the mood, persists,
resets the count map, and sends the recovery notification. -/
def ngambekExit (now chatId : Int) (rnd : Nat) (st1 : SulkState) :
    SulkState × List SinkMsg × List PrefWrite :=
  if st1.isNgambekMode then
    if hasSufficientInteraction now st1.dailyChatCounts then
      let moodStep := setMood now (some chatId) (getRandomMood rnd) MOOD_TIMEOUT_MS st1.mood
      ({ st1 with isNgambekMode := false, mood := moodStep.1, dailyChatCounts := [] },
        moodStep.2 ++ [SinkMsg.ngambekEnded],
        [PrefWrite.ngambekFlag false, PrefWrite.counts []])
    else (st1, [], [])
  else (st1, [], [])

def checkNgambekStatus (now : Int) (chatId : Int) (rnd : Nat) (st : SulkState) :
    NgambekResult :=
  if ¬ isFeatureEnabled "ENABLE_NGAMBEK_MODE" then
    if st.isNgambekMode then
      { state := { st with isNgambekMode := false }, messages := [],
        prefWrites := [PrefWrite.ngambekFlag false] }
    else { state := st, messages := [], prefWrites := [] }
  else
    let entry := ngambekEntry now chatId st
    let exit := ngambekExit now chatId rnd entry.1
    let cleaned := pruneOld now exit.1.dailyChatCounts
    { state := { exit.1 with dailyChatCounts := cleaned },
      messages := entry.2.1 ++ exit.2.1,
      prefWrites := entry.2.2 ++ exit.2.2 ++ [PrefWrite.counts cleaned] }

/-- The sulk-specific notifications (the `sendMessage` texts of core/core.js
lines 532-535 and 572-575), excluding the mood-change broadcast that `setMood`
itself sends. -/
def sulkNotices (evs : List SinkMsg) : List SinkMsg :=
  evs.filter (fun e =>
    match e with
    | SinkMsg.moodChanged _ => false
    | _ => true)

theorem checkNgambek_eq (now chatId : Int) (rnd : Nat) (st : SulkState) :
    checkNgambekStatus now chatId rnd st =
      { state := { (ngambekExit now chatId rnd (ngambekEntry now chatId st).1).1 with
          dailyChatCounts := pruneOld now
            (ngambekExit now chatId rnd (ngambekEntry now chatId st).1).1.dailyChatCounts },
        messages := (ngambekEntry now chatId st).2.1 ++
          (ngambekExit now chatId rnd (ngambekEntry now chatId st).1).2.1,
        prefWrites := (ngambekEntry now chatId st).2.2 ++
          (ngambekExit now chatId rnd (ngambekEntry now chatId st).1).2.2 ++
          [PrefWrite.counts (pruneOld now
            (ngambekExit now chatId rnd (ngambekEntry now chatId st).1).1.dailyChatCounts)] } := by
  unfold checkNgambekStatus
  rw [if_neg (fun h => h rfl)]

theorem ngambekEntry_fires (now chatId : Int) (st : SulkState) (last : Int)
    (hflag : st.isNgambekMode = false)
    (hlast : st.lastInteractionTimestamp = some last)
    (hge : NGAMBEK_DURATION_DAYS ≤ diffDaysOf now last) :
    ngambekEntry now chatId st =
      ({ st with
          isNgambekMode := true,
          mood := (setMood now (some chatId) MoodId.JEALOUS MOOD_TIMEOUT_MS st.mood).1 },
        (setMood now (some chatId) MoodId.JEALOUS MOOD_TIMEOUT_MS st.mood).2 ++
          [SinkMsg.ngambekEntered (diffDaysOf now last)],
        [PrefWrite.ngambekFlag true]) := by
  unfold ngambekEntry
  simp only [hflag, hlast]
  rw [if_pos hge]

theorem ngambekEntry_below (now chatId : Int) (st : SulkState) (last : Int)
    (hflag : st.isNgambekMode = false)
    (hlast : st.lastInteractionTimestamp = some last)
    (hlt : diffDaysOf now last < NGAMBEK_DURATION_DAYS) :
    ngambekEntry now chatId st = (st, [], []) := by
  unfold ngambekEntry
  simp only [hflag, hlast]
  rw [if_neg (by omega)]

theorem ngambekEntry_noTimestamp (now chatId : Int) (st : SulkState)
    (hflag : st.isNgambekMode = false)
    (hlast : st.lastInteractionTimestamp = none) :
    ngambekEntry now chatId st = (st, [], []) := by
  unfold ngambekEntry
  simp only [hflag, hlast]

theorem ngambekEntry_sulking (now chatId : Int) (st : SulkState)
    (hflag : st.isNgambekMode = true) :
    ngambekEntry now chatId st = (st, [], []) := by
  unfold ngambekEntry
  simp only [hflag]

theorem ngambekExit_fires (now chatId : Int) (rnd : Nat) (st1 : SulkState)
    (hflag : st1.isNgambekMode = true)
    (hsuf : hasSufficientInteraction now st1.dailyChatCounts = true) :
    ngambekExit now chatId rnd st1 =
      ({ st1 with
          isNgambekMode := false,
          mood := (setMood now (some chatId) (getRandomMood rnd) MOOD_TIMEOUT_MS st1.mood).1,
          dailyChatCounts := [] },
        (setMood now (some chatId) (getRandomMood rnd) MOOD_TIMEOUT_MS st1.mood).2 ++
          [SinkMsg.ngambekEnded],
        [PrefWrite.ngambekFlag false, PrefWrite.counts []]) := by
  unfold ngambekExit
  rw [if_pos hflag, if_pos hsuf]

theorem ngambekExit_insufficient (now chatId : Int) (rnd : Nat) (st1 : SulkState)
    (hsuf : hasSufficientInteraction now st1.dailyChatCounts = false) :
    ngambekExit now chatId rnd st1 = (st1, [], []) := by
  unfold ngambekExit
  split_ifs with h1 h2
  · rw [hsuf] at h2; cases h2
  · rfl
  · rfl

theorem ngambekExit_notSulking (now chatId : Int) (rnd : Nat) (st1 : SulkState)
    (hflag : st1.isNgambekMode = false) :
    ngambekExit now chatId rnd st1 = (st1, [], []) := by
  unfold ngambekExit
  rw [if_neg (by rw [hflag]; exact Bool.false_ne_true)]

theorem hasSufficientInteraction_iff (now : Int) (m : List (Int × Nat)) :
    hasSufficientInteraction now m = true ↔
      (MIN_CHATS_PER_DAY_TO_END_NGAMBEK ≤ countOn m (dayOf now) ∧
        MIN_CHATS_PER_DAY_TO_END_NGAMBEK ≤ countOn m (dayOf now - 1)) := by
  unfold hasSufficientInteraction END_NGAMBEK_INTERACTION_DAYS
  rw [show List.range 2 = [0, 1] from rfl]
  simp

theorem countOn_cons (e : Int × Nat) (es : List (Int × Nat)) (d : Int) :
    countOn (e :: es) d = if e.1 = d then e.2 else countOn es d := by
  by_cases hk : e.1 = d
  · unfold countOn
    simp [List.find?, hk]
  · unfold countOn
    simp [List.find?, hk]

theorem countOn_filter_of_keep {p : Int × Nat → Bool} {m : List (Int × Nat)} {d : Int}
    (hd : ∀ e : Int × Nat, e.1 = d → p e = true) :
    countOn (m.filter p) d = countOn m d := by
  induction m with
  | nil => rfl
  | cons e es ih =>
    rw [List.filter_cons]
    by_cases hk : e.1 = d
    · rw [if_pos (hd e hk), countOn_cons, countOn_cons, if_pos hk, if_pos hk]
    · rw [countOn_cons, if_neg hk]
      split_ifs with hp
      · rw [countOn_cons, if_neg hk]
        exact ih
      · exact ih

theorem pruneOld_keeps_today (now : Int) (m : List (Int × Nat)) :
    countOn (pruneOld now m) (dayOf now) = countOn m (dayOf now) := by
  apply countOn_filter_of_keep
  intro e he
  simp only [he, dayOf, MS_PER_DAY, NGAMBEK_DURATION_DAYS, decide_eq_true_eq]
  norm_num
  omega

theorem pruneOld_keeps_yesterday (now : Int) (m : List (Int × Nat)) :
    countOn (pruneOld now m) (dayOf now - 1) = countOn m (dayOf now - 1) := by
  apply countOn_filter_of_keep
  intro e he
  simp only [he, dayOf, MS_PER_DAY, NGAMBEK_DURATION_DAYS, decide_eq_true_eq]
  norm_num
  omega

theorem hasSufficientInteraction_pruneOld (now : Int) (m : List (Int × Nat)) :
    hasSufficientInteraction now (pruneOld now m) = hasSufficientInteraction now m := by
  rcases h : hasSufficientInteraction now m with hh | hh
  · rcases h2 : hasSufficientInteraction now (pruneOld now m) with h2h | h2h
    · rfl
    · exfalso
      obtain ⟨h1, h2'⟩ := (hasSufficientInteraction_iff now (pruneOld now m)).mp h2
      rw [pruneOld_keeps_today] at h1
      rw [pruneOld_keeps_yesterday] at h2'
      have := (hasSufficientInteraction_iff now m).mpr ⟨h1, h2'⟩
      rw [h] at this
      cases this
  · obtain ⟨h1, h2'⟩ := (hasSufficientInteraction_iff now m).mp h
    exact (hasSufficientInteraction_iff now (pruneOld now m)).mpr
      ⟨by rw [pruneOld_keeps_today]; exact h1,
        by rw [pruneOld_keeps_yesterday]; exact h2'⟩

theorem pruneOld_idem (now : Int) (m : List (Int × Nat)) :
    pruneOld now (pruneOld now m) = pruneOld now m := by
  unfold pruneOld
  rw [List.filter_filter]
  congr 1
  funext e
  rcases h : decide (¬ e.1 * MS_PER_DAY < now - (↑NGAMBEK_DURATION_DAYS + 1) * MS_PER_DAY)
    with _ | _ <;> simp [h]

theorem two_le_diffDaysOf_iff (now last : Int) :
    NGAMBEK_DURATION_DAYS ≤ diffDaysOf now last ↔ 86400000 < (now - last).natAbs := by
  unfold diffDaysOf NGAMBEK_DURATION_DAYS
  omega

theorem setMood_currentMood (now : Int) (chatId : Option Int) (newMood : MoodId)
    (durationMs : Int) (st : MoodState) :
    (setMood now chatId newMood durationMs st).1.currentMood = newMood := by
  unfold setMood
  split_ifs <;> simp_all <;> first
  | rfl
  | (split <;> rfl)

theorem setMood_messages (now : Int) (chatId : Option Int) (newMood : MoodId)
    (durationMs : Int) (st : MoodState) :
    (setMood now chatId newMood durationMs st).2 = [] ∨
      (setMood now chatId newMood durationMs st).2 = [SinkMsg.moodChanged newMood] := by
  unfold setMood
  by_cases he : st.currentMood = newMood <;> cases chatId <;> split_ifs <;> simp [he]

theorem sulkNotices_append (a b : List SinkMsg) :
    sulkNotices (a ++ b) = sulkNotices a ++ sulkNotices b := by
  unfold sulkNotices
  exact List.filter_append a b

theorem sulkNotices_setMood (now : Int) (chatId : Option Int) (newMood : MoodId)
    (durationMs : Int) (st : MoodState) :
    sulkNotices (setMood now chatId newMood durationMs st).2 = [] := by
  rcases setMood_messages now chatId newMood durationMs st with h | h <;> rw [h] <;> rfl

/-- The data-model consistency invariant relating the daily-count map to the
last-interaction timestamp: a positive count for today implies an interaction
happened today, i.e. the recorded last interaction is less than one day away
from `now`.  `updateInteractionStatus` (core/core.js lines 448-493) writes
`lastInteractionTimestamp := now` and increments today's counter in the same
mutex-protected block, so every state the program produces satisfies this. -/
def Consistent (now : Int) (st : SulkState) : Prop :=
  0 < countOn st.dailyChatCounts (dayOf now) →
    ∃ last, st.lastInteractionTimestamp = some last ∧ (now - last).natAbs < 86400000

/-- Claim C4: for every non-sulking state with a recorded last-interaction
timestamp (consistent with its count map), sulk evaluation enters sulk exactly
when the elapsed-day count `diffDays = ceil(|now − last| / 1 day)` computed by
the code is at least `D_enter = NGAMBEK_DURATION_DAYS = 2`; on entry it sets
the sulk flag, forces the mood to the displeased `JEALOUS` value, persists the
flag, and emits exactly one sulk notification; below the threshold no entry,
no notification and no mood change occur. -/
theorem sulk_entry_threshold (now chatId : Int) (rnd : Nat) (st : SulkState) (last : Int)
    (hflag : st.isNgambekMode = false)
    (hlast : st.lastInteractionTimestamp = some last)
    (hcons : Consistent now st) :
    (NGAMBEK_DURATION_DAYS ≤ diffDaysOf now last →
      (checkNgambekStatus now chatId rnd st).state.isNgambekMode = true ∧
      (checkNgambekStatus now chatId rnd st).state.mood.currentMood = MoodId.JEALOUS ∧
      PrefWrite.ngambekFlag true ∈ (checkNgambekStatus now chatId rnd st).prefWrites ∧
      sulkNotices (checkNgambekStatus now chatId rnd st).messages =
        [SinkMsg.ngambekEntered (diffDaysOf now last)]) ∧
    (diffDaysOf now last < NGAMBEK_DURATION_DAYS →
      (checkNgambekStatus now chatId rnd st).state.isNgambekMode = false ∧
      (checkNgambekStatus now chatId rnd st).messages = [] ∧
      (checkNgambekStatus now chatId rnd st).state.mood = st.mood) := by
  constructor
  · intro hge
    have habs : 86400000 < (now - last).natAbs := (two_le_diffDaysOf_iff now last).mp hge
    have hzero : countOn st.dailyChatCounts (dayOf now) = 0 := by
      by_contra h
      obtain ⟨last2, hl2, hd2⟩ := hcons (Nat.pos_of_ne_zero h)
      rw [hlast] at hl2
      injection hl2 with hl2
      omega
    have hsuf : hasSufficientInteraction now st.dailyChatCounts = false := by
      rcases h : hasSufficientInteraction now st.dailyChatCounts with _ | _
      · rfl
      · exfalso
        obtain ⟨h1, _⟩ := (hasSufficientInteraction_iff _ _).mp h
        rw [hzero] at h1
        simp [MIN_CHATS_PER_DAY_TO_END_NGAMBEK] at h1
    have hexit := ngambekExit_insufficient now chatId rnd
      { st with
        isNgambekMode := true,
        mood := (setMood now (some chatId) MoodId.JEALOUS MOOD_TIMEOUT_MS st.mood).1 } hsuf
    rw [checkNgambek_eq, ngambekEntry_fires now chatId st last hflag hlast hge]
    simp only []
    rw [hexit]
    refine ⟨rfl, setMood_currentMood _ _ _ _ _, by simp, ?_⟩
    rw [show ({ st with
        isNgambekMode := true,
        mood := (setMood now (some chatId) MoodId.JEALOUS MOOD_TIMEOUT_MS st.mood).1 },
        ([] : List SinkMsg), ([] : List PrefWrite)).2.1 = [] from rfl, List.append_nil,
      sulkNotices_append, sulkNotices_setMood]
    rfl
  · intro hlt
    rw [checkNgambek_eq, ngambekEntry_below now chatId st last hflag hlast hlt]
    simp only []
    rw [ngambekExit_notSulking now chatId rnd st hflag]
    exact ⟨hflag, rfl, rfl⟩

/-- Instance of `sulk_entry_threshold`: a last interaction exactly 3 days in
the past triggers sulk entry with one notification; a last interaction of just
now does not. -/
theorem sulk_entry_threshold_witness :
    ((checkNgambekStatus 2600000000 1 0
        ⟨false, some 2340800000, [], ⟨MoodId.NORMAL, none⟩⟩).state.isNgambekMode = true ∧
      (checkNgambekStatus 2600000000 1 0
        ⟨false, some 2340800000, [], ⟨MoodId.NORMAL, none⟩⟩).state.mood.currentMood =
        MoodId.JEALOUS ∧
      PrefWrite.ngambekFlag true ∈ (checkNgambekStatus 2600000000 1 0
        ⟨false, some 2340800000, [], ⟨MoodId.NORMAL, none⟩⟩).prefWrites ∧
      sulkNotices (checkNgambekStatus 2600000000 1 0
        ⟨false, some 2340800000, [], ⟨MoodId.NORMAL, none⟩⟩).messages =
        [SinkMsg.ngambekEntered (diffDaysOf 2600000000 2340800000)]) ∧
    ((checkNgambekStatus 2600000000 1 0
        ⟨false, some 2600000000, [], ⟨MoodId.NORMAL, none⟩⟩).state.isNgambekMode = false ∧
      (checkNgambekStatus 2600000000 1 0
        ⟨false, some 2600000000, [], ⟨MoodId.NORMAL, none⟩⟩).messages = [] ∧
      (checkNgambekStatus 2600000000 1 0
        ⟨false, some 2600000000, [], ⟨MoodId.NORMAL, none⟩⟩).state.mood =
        (⟨MoodId.NORMAL, none⟩ : MoodState)) :=
  ⟨(sulk_entry_threshold 2600000000 1 0
      ⟨false, some 2340800000, [], ⟨MoodId.NORMAL, none⟩⟩ 2340800000 rfl rfl
      (fun h => absurd h (by decide))).1 (by decide),
    (sulk_entry_threshold 2600000000 1 0
      ⟨false, some 2600000000, [], ⟨MoodId.NORMAL, none⟩⟩ 2600000000 rfl rfl
      (fun h => absurd h (by decide))).2 (by decide)⟩

/-- Claim C5 counterexample: with `isSulking = true` and the exit criterion
failing (today and yesterday both have no chats), the count map is NOT left
unchanged as the claim states: the evaluation's final cleanup prunes the
8-day-old entry `(day 2, 7 chats)` from the map. -/
theorem sulk_exit_unchanged_cex :
    (⟨true, some 0, [(2, 7)], ⟨MoodId.NORMAL, none⟩⟩ : SulkState).isNgambekMode = true ∧
    ¬(MIN_CHATS_PER_DAY_TO_END_NGAMBEK ≤ countOn [(2, 7)] (dayOf 864000005) ∧
      MIN_CHATS_PER_DAY_TO_END_NGAMBEK ≤ countOn [(2, 7)] (dayOf 864000005 - 1)) ∧
    (checkNgambekStatus 864000005 1 0
      ⟨true, some 0, [(2, 7)], ⟨MoodId.NORMAL, none⟩⟩).state.dailyChatCounts ≠ [(2, 7)] := by
  decide

/-- Claim C5 (amended): for every sulking state, sulk evaluation exits sulk
exactly when each of the last `D_exit = END_NGAMBEK_INTERACTION_DAYS = 2`
calendar days (today included) has a daily count of at least
`C_min = MIN_CHATS_PER_DAY_TO_END_NGAMBEK = 6`; on exit it clears and persists
the flag, resets the count map to empty, emits one sulk notification, and sets
the mood to the randomly drawn mood, which is never CALM.  If some of those
days falls short, the sulk flag is unchanged and no notification is sent, and
the count map is unchanged EXCEPT that entries older than
`NGAMBEK_DURATION_DAYS + 1` days are pruned by the unconditional cleanup (the
only amendment forced by the counterexample). -/
theorem sulk_exit_criterion (now chatId : Int) (rnd : Nat) (st : SulkState)
    (hflag : st.isNgambekMode = true) :
    ((MIN_CHATS_PER_DAY_TO_END_NGAMBEK ≤ countOn st.dailyChatCounts (dayOf now) ∧
      MIN_CHATS_PER_DAY_TO_END_NGAMBEK ≤ countOn st.dailyChatCounts (dayOf now - 1)) →
      (checkNgambekStatus now chatId rnd st).state.isNgambekMode = false ∧
      PrefWrite.ngambekFlag false ∈ (checkNgambekStatus now chatId rnd st).prefWrites ∧
      (checkNgambekStatus now chatId rnd st).state.dailyChatCounts = [] ∧
      sulkNotices (checkNgambekStatus now chatId rnd st).messages = [SinkMsg.ngambekEnded] ∧
      (checkNgambekStatus now chatId rnd st).state.mood.currentMood = getRandomMood rnd ∧
      getRandomMood rnd ≠ MoodId.CALM) ∧
    (¬(MIN_CHATS_PER_DAY_TO_END_NGAMBEK ≤ countOn st.dailyChatCounts (dayOf now) ∧
      MIN_CHATS_PER_DAY_TO_END_NGAMBEK ≤ countOn st.dailyChatCounts (dayOf now - 1)) →
      (checkNgambekStatus now chatId rnd st).state.isNgambekMode = true ∧
      (checkNgambekStatus now chatId rnd st).state.dailyChatCounts =
        pruneOld now st.dailyChatCounts ∧
      (checkNgambekStatus now chatId rnd st).messages = []) := by
  constructor
  · intro hE
    have hsuf : hasSufficientInteraction now st.dailyChatCounts = true :=
      (hasSufficientInteraction_iff now st.dailyChatCounts).mpr hE
    rw [checkNgambek_eq, ngambekEntry_sulking now chatId st hflag]
    simp only []
    rw [ngambekExit_fires now chatId rnd st hflag hsuf]
    refine ⟨rfl, by simp, rfl, ?_, setMood_currentMood _ _ _ _ _, getRandomMood_ne_CALM rnd⟩
    simp only [List.nil_append]
    rw [sulkNotices_append, sulkNotices_setMood]
    rfl
  · intro hE
    have hsuf : hasSufficientInteraction now st.dailyChatCounts = false := by
      rcases h : hasSufficientInteraction now st.dailyChatCounts with _ | _
      · rfl
      · exact absurd ((hasSufficientInteraction_iff now st.dailyChatCounts).mp h) hE
    rw [checkNgambek_eq, ngambekEntry_sulking now chatId st hflag]
    simp only []
    rw [ngambekExit_insufficient now chatId rnd st hsuf]
    exact ⟨hflag, rfl, rfl⟩

/-- Instance of `sulk_exit_criterion`: today 6 chats and yesterday 7 chats end
the sulk and clear the map; an 8-day-old stray entry with no recent chats keeps
the flag and merely prunes. -/
theorem sulk_exit_criterion_witness :
    ((checkNgambekStatus 864000005 1 0
        ⟨true, some 0, [(10, 6), (9, 7)], ⟨MoodId.NORMAL, none⟩⟩).state.isNgambekMode =
          false ∧
      PrefWrite.ngambekFlag false ∈ (checkNgambekStatus 864000005 1 0
        ⟨true, some 0, [(10, 6), (9, 7)], ⟨MoodId.NORMAL, none⟩⟩).prefWrites ∧
      (checkNgambekStatus 864000005 1 0
        ⟨true, some 0, [(10, 6), (9, 7)], ⟨MoodId.NORMAL, none⟩⟩).state.dailyChatCounts =
          [] ∧
      sulkNotices (checkNgambekStatus 864000005 1 0
        ⟨true, some 0, [(10, 6), (9, 7)], ⟨MoodId.NORMAL, none⟩⟩).messages =
          [SinkMsg.ngambekEnded] ∧
      (checkNgambekStatus 864000005 1 0
        ⟨true, some 0, [(10, 6), (9, 7)], ⟨MoodId.NORMAL, none⟩⟩).state.mood.currentMood =
          getRandomMood 0 ∧
      getRandomMood 0 ≠ MoodId.CALM) ∧
    ((checkNgambekStatus 864000005 1 0
        ⟨true, some 0, [(2, 7)], ⟨MoodId.NORMAL, none⟩⟩).state.isNgambekMode = true ∧
      (checkNgambekStatus 864000005 1 0
        ⟨true, some 0, [(2, 7)], ⟨MoodId.NORMAL, none⟩⟩).state.dailyChatCounts =
          pruneOld 864000005 [(2, 7)] ∧
      (checkNgambekStatus 864000005 1 0
        ⟨true, some 0, [(2, 7)], ⟨MoodId.NORMAL, none⟩⟩).messages = []) :=
  ⟨(sulk_exit_criterion 864000005 1 0
      ⟨true, some 0, [(10, 6), (9, 7)], ⟨MoodId.NORMAL, none⟩⟩ rfl).1 (by decide),
    (sulk_exit_criterion 864000005 1 0
      ⟨true, some 0, [(2, 7)], ⟨MoodId.NORMAL, none⟩⟩ rfl).2 (by decide)⟩

theorem checkNgambek_stable (now chatId : Int) (rnd : Nat) (s : SulkState)
    (hNoEntry : ngambekEntry now chatId s = (s, [], []))
    (hNoExit : ngambekExit now chatId rnd s = (s, [], []))
    (hPruned : pruneOld now s.dailyChatCounts = s.dailyChatCounts) :
    checkNgambekStatus now chatId rnd s =
      { state := s, messages := [], prefWrites := [PrefWrite.counts s.dailyChatCounts] } := by
  rw [checkNgambek_eq, hNoEntry]
  simp only []
  rw [hNoExit]
  simp only []
  rw [hPruned]
  simp

/-- Claim C6: sulk evaluation is idempotent.  Invoking `checkNgambekStatus`
twice with the same current time, no new interactions and no external state
change in between (starting from a state satisfying the data-model consistency
invariant), the second invocation leaves the whole state — sulk flag, mood,
daily-count map — exactly as the first left it and emits no message at all:
the entry/exit side effects are guarded by the boolean flag transition and
cannot double-fire. -/
theorem sulk_evaluation_idempotent (now chatId : Int) (rnd rnd₂ : Nat) (st : SulkState)
    (hcons : Consistent now st) :
    (checkNgambekStatus now chatId rnd₂ (checkNgambekStatus now chatId rnd st).state).state =
      (checkNgambekStatus now chatId rnd st).state ∧
    (checkNgambekStatus now chatId rnd₂
      (checkNgambekStatus now chatId rnd st).state).messages = [] := by
  rcases hflag : st.isNgambekMode with _ | _
  · -- not sulking
    rcases hlast : st.lastInteractionTimestamp with _ | last
    · -- no recorded timestamp: nothing fires
      have h1 : (checkNgambekStatus now chatId rnd st).state =
          { st with dailyChatCounts := pruneOld now st.dailyChatCounts } := by
        rw [checkNgambek_eq, ngambekEntry_noTimestamp now chatId st hflag hlast]
        simp only []
        rw [ngambekExit_notSulking now chatId rnd st hflag]
      have h2 := checkNgambek_stable now chatId rnd₂
        { st with dailyChatCounts := pruneOld now st.dailyChatCounts }
        (ngambekEntry_noTimestamp now chatId _ hflag hlast)
        (ngambekExit_notSulking now chatId rnd₂ _ hflag)
        (pruneOld_idem now st.dailyChatCounts)
      rw [h1, h2]
      exact ⟨rfl, rfl⟩
    · by_cases hge : NGAMBEK_DURATION_DAYS ≤ diffDaysOf now last
      · -- entry fires; exit cannot (consistency keeps today at zero)
        have habs : 86400000 < (now - last).natAbs := (two_le_diffDaysOf_iff now last).mp hge
        have hzero : countOn st.dailyChatCounts (dayOf now) = 0 := by
          by_contra h
          obtain ⟨last2, hl2, hd2⟩ := hcons (Nat.pos_of_ne_zero h)
          rw [hlast] at hl2
          injection hl2 with hl2
          omega
        have hsuf : hasSufficientInteraction now st.dailyChatCounts = false := by
          rcases h : hasSufficientInteraction now st.dailyChatCounts with _ | _
          · rfl
          · exfalso
            obtain ⟨h1, _⟩ := (hasSufficientInteraction_iff _ _).mp h
            rw [hzero] at h1
            simp [MIN_CHATS_PER_DAY_TO_END_NGAMBEK] at h1
        have h1 : (checkNgambekStatus now chatId rnd st).state =
            { st with
              isNgambekMode := true,
              mood := (setMood now (some chatId) MoodId.JEALOUS MOOD_TIMEOUT_MS st.mood).1,
              dailyChatCounts := pruneOld now st.dailyChatCounts } := by
          rw [checkNgambek_eq, ngambekEntry_fires now chatId st last hflag hlast hge]
          simp only []
          rw [ngambekExit_insufficient now chatId rnd
            { st with
              isNgambekMode := true,
              mood :=
                (setMood now (some chatId) MoodId.JEALOUS MOOD_TIMEOUT_MS st.mood).1 } hsuf]
        have hsuf2 : hasSufficientInteraction now (pruneOld now st.dailyChatCounts) = false := by
          rw [hasSufficientInteraction_pruneOld]
          exact hsuf
        have h2 := checkNgambek_stable now chatId rnd₂
          { st with
            isNgambekMode := true,
            mood := (setMood now (some chatId) MoodId.JEALOUS MOOD_TIMEOUT_MS st.mood).1,
            dailyChatCounts := pruneOld now st.dailyChatCounts }
          (ngambekEntry_sulking now chatId _ rfl)
          (ngambekExit_insufficient now chatId rnd₂ _ hsuf2)
          (pruneOld_idem now st.dailyChatCounts)
        rw [h1, h2]
        exact ⟨rfl, rfl⟩
      · -- below the threshold: nothing fires
        have hlt : diffDaysOf now last < NGAMBEK_DURATION_DAYS := by omega
        have h1 : (checkNgambekStatus now chatId rnd st).state =
            { st with dailyChatCounts := pruneOld now st.dailyChatCounts } := by
          rw [checkNgambek_eq, ngambekEntry_below now chatId st last hflag hlast hlt]
          simp only []
          rw [ngambekExit_notSulking now chatId rnd st hflag]
        have h2 := checkNgambek_stable now chatId rnd₂
          { st with dailyChatCounts := pruneOld now st.dailyChatCounts }
          (ngambekEntry_below now chatId _ last hflag hlast hlt)
          (ngambekExit_notSulking now chatId rnd₂ _ hflag)
          (pruneOld_idem now st.dailyChatCounts)
        rw [h1, h2]
        exact ⟨rfl, rfl⟩
  · -- sulking
    by_cases hsuf : hasSufficientInteraction now st.dailyChatCounts = true
    · -- exit fires; entry cannot refire (consistency bounds the elapsed time)
      obtain ⟨h6a, _⟩ := (hasSufficientInteraction_iff now st.dailyChatCounts).mp hsuf
      obtain ⟨last, hl, habs⟩ := hcons
        (by unfold MIN_CHATS_PER_DAY_TO_END_NGAMBEK at h6a; omega)
      have h1 : (checkNgambekStatus now chatId rnd st).state =
          { st with
            isNgambekMode := false,
            mood := (setMood now (some chatId) (getRandomMood rnd) MOOD_TIMEOUT_MS st.mood).1,
            dailyChatCounts := [] } := by
        rw [checkNgambek_eq, ngambekEntry_sulking now chatId st hflag]
        simp only []
        rw [ngambekExit_fires now chatId rnd st hflag hsuf]
        rfl
      have hlt : diffDaysOf now last < NGAMBEK_DURATION_DAYS := by
        have hnot : ¬ NGAMBEK_DURATION_DAYS ≤ diffDaysOf now last := by
          intro h
          have := (two_le_diffDaysOf_iff now last).mp h
          omega
        omega
      have h2 := checkNgambek_stable now chatId rnd₂
        { st with
          isNgambekMode := false,
          mood := (setMood now (some chatId) (getRandomMood rnd) MOOD_TIMEOUT_MS st.mood).1,
          dailyChatCounts := [] }
        (ngambekEntry_below now chatId _ last rfl hl hlt)
        (ngambekExit_notSulking now chatId rnd₂ _ rfl)
        rfl
      rw [h1, h2]
      exact ⟨rfl, rfl⟩
    · -- criterion not met: nothing fires
      have hsufF : hasSufficientInteraction now st.dailyChatCounts = false := by
        rcases h : hasSufficientInteraction now st.dailyChatCounts with _ | _
        · rfl
        · exact absurd h hsuf
      have h1 : (checkNgambekStatus now chatId rnd st).state =
          { st with dailyChatCounts := pruneOld now st.dailyChatCounts } := by
        rw [checkNgambek_eq, ngambekEntry_sulking now chatId st hflag]
        simp only []
        rw [ngambekExit_insufficient now chatId rnd st hsufF]
      have hsuf2 : hasSufficientInteraction now (pruneOld now st.dailyChatCounts) = false := by
        rw [hasSufficientInteraction_pruneOld]
        exact hsufF
      have h2 := checkNgambek_stable now chatId rnd₂
        { st with dailyChatCounts := pruneOld now st.dailyChatCounts }
        (ngambekEntry_sulking now chatId _ hflag)
        (ngambekExit_insufficient now chatId rnd₂ _ hsuf2)
        (pruneOld_idem now st.dailyChatCounts)
      rw [h1, h2]
      exact ⟨rfl, rfl⟩

/-- Instance of `sulk_evaluation_idempotent`: the first evaluation ends the
sulk (criterion met); the second evaluation changes nothing and stays silent. -/
theorem sulk_evaluation_idempotent_witness :
    (checkNgambekStatus 864000005 1 3 (checkNgambekStatus 864000005 1 0
      ⟨true, some 864000000, [(10, 6), (9, 7)], ⟨MoodId.NORMAL, none⟩⟩).state).state =
      (checkNgambekStatus 864000005 1 0
        ⟨true, some 864000000, [(10, 6), (9, 7)], ⟨MoodId.NORMAL, none⟩⟩).state ∧
    (checkNgambekStatus 864000005 1 3 (checkNgambekStatus 864000005 1 0
      ⟨true, some 864000000, [(10, 6), (9, 7)], ⟨MoodId.NORMAL, none⟩⟩).state).messages = [] :=
  sulk_evaluation_idempotent 864000005 1 0 3
    ⟨true, some 864000000, [(10, 6), (9, 7)], ⟨MoodId.NORMAL, none⟩⟩
    (fun _ => ⟨864000000, rfl, by decide⟩)

/-! ### cleanupOldLTMs (src/data/memory.js lines 264-301)

LTM documents carry a LokiJS `$loki` identity (modelled as `id`, unique per
collection), an integer `priority` and an ISO-8601 `createdAt` string whose
lexicographic order coincides with chronological order; `createdAt` is modelled
as epoch milliseconds.  `ltm.chain().find(criteria).limit(50).data()` returns
the first `LTM_CLEANUP_BATCH_SIZE` matching documents, `ltm.remove(docs)`
deletes exactly those documents (by identity), and the `while (hasMore)` loop
repeats until no match remains. -/

structure LTMEntry where
  id : Nat
  priority : Nat
  createdAt : Int
deriving DecidableEq, Repr

/-- The `$or` deletion criteria of `cleanupOldLTMs`: priority 100 entries older
than 60 days, priority 91-99 entries older than 14 days, priority-at-most-90
entries older than 5 days. -/
def ltmMatches (now : Int) (e : LTMEntry) : Bool :=
  (e.priority = 100 && decide (e.createdAt < now - 60 * MS_PER_DAY)) ||
  ((91 ≤ e.priority && e.priority ≤ 99) && decide (e.createdAt < now - 14 * MS_PER_DAY)) ||
  (e.priority ≤ 90 && decide (e.createdAt < now - 5 * MS_PER_DAY))

/-- The batch of one `while` iteration. -/
def ltmBatch (now : Int) (l : List LTMEntry) : List LTMEntry :=
  (l.filter (ltmMatches now)).take LTM_CLEANUP_BATCH_SIZE

/-- `ltm.remove(oldDocs)`: delete the batch documents by identity. -/
def ltmRemove (now : Int) (l : List LTMEntry) : List LTMEntry :=
  l.filter (fun e => ! (ltmBatch now l).any (fun b => b.id = e.id))

/-- The `while (hasMore)` loop; the fuel argument (instantiated with the
collection size, an upper bound on the number of non-empty batches) makes the
recursion structural. -/
def cleanupBatches (now : Int) : Nat → List LTMEntry → List (List LTMEntry) × List LTMEntry
  | 0, l => ([], l)
  | fuel + 1, l =>
    if (ltmBatch now l).isEmpty then ([], l)
    else
      (ltmBatch now l :: (cleanupBatches now fuel (ltmRemove now l)).1,
        (cleanupBatches now fuel (ltmRemove now l)).2)

def cleanupOldLTMs (now : Int) (l : List LTMEntry) :
    List (List LTMEntry) × List LTMEntry :=
  cleanupBatches now l.length l

theorem ltmBatch_empty_no_match (now : Int) (l : List LTMEntry)
    (h : (ltmBatch now l).isEmpty = true) : ∀ x ∈ l, ltmMatches now x = false := by
  have hempty : l.filter (ltmMatches now) = [] := by
    cases hf : l.filter (ltmMatches now) with
    | nil => rfl
    | cons a as =>
      unfold ltmBatch at h
      rw [hf] at h
      simp [LTM_CLEANUP_BATCH_SIZE] at h
  intro x hx
  rcases hm : ltmMatches now x with _ | _
  · rfl
  · exact absurd (List.mem_filter.mpr ⟨hx, hm⟩) (by rw [hempty]; simp)

theorem filter_not_of_no_match (now : Int) (l : List LTMEntry)
    (h : ∀ x ∈ l, ltmMatches now x = false) :
    l.filter (fun e => ! ltmMatches now e) = l :=
  List.filter_eq_self.mpr (fun x hx => by rw [h x hx]; rfl)

theorem ltmBatch_mem (now : Int) (l : List LTMEntry) (b : LTMEntry)
    (hb : b ∈ ltmBatch now l) : b ∈ l ∧ ltmMatches now b = true := by
  have := List.take_subset LTM_CLEANUP_BATCH_SIZE (l.filter (ltmMatches now)) hb
  exact ⟨(List.mem_filter.mp this).1, (List.mem_filter.mp this).2⟩

theorem ltmBatch_any_eq_false (now : Int) (l : List LTMEntry)
    (hnodup : (l.map (fun e => e.id)).Nodup) (e : LTMEntry) (hel : e ∈ l)
    (hnm : ltmMatches now e = false) :
    (ltmBatch now l).any (fun b => b.id = e.id) = false := by
  rcases h : (ltmBatch now l).any (fun b => b.id = e.id) with _ | _
  · rfl
  · exfalso
    obtain ⟨b, hbm, hid⟩ := List.any_eq_true.mp h
    obtain ⟨hbl, hbmt⟩ := ltmBatch_mem now l b hbm
    have hbe : b = e := List.inj_on_of_nodup_map hnodup hbl hel (by simpa using hid)
    rw [hbe, hnm] at hbmt
    cases hbmt

theorem ltmRemove_filter_not (now : Int) (l : List LTMEntry)
    (hnodup : (l.map (fun e => e.id)).Nodup) :
    (ltmRemove now l).filter (fun e => ! ltmMatches now e) =
      l.filter (fun e => ! ltmMatches now e) := by
  unfold ltmRemove
  rw [List.filter_filter]
  apply List.filter_congr
  intro x hx
  rcases hm : ltmMatches now x with _ | _
  · rw [ltmBatch_any_eq_false now l hnodup x hx hm]
    rfl
  · simp

theorem ltmRemove_measure (now : Int) (l : List LTMEntry)
    (hne : (ltmBatch now l).isEmpty = false) :
    ((ltmRemove now l).filter (ltmMatches now)).length <
      (l.filter (ltmMatches now)).length := by
  unfold ltmRemove
  rw [List.filter_filter]
  rw [show (fun e => ltmMatches now e && ! (ltmBatch now l).any (fun b => b.id = e.id)) =
      (fun e => (! (ltmBatch now l).any (fun b => b.id = e.id)) && ltmMatches now e) from by
    funext e; exact Bool.and_comm _ _]
  rw [← List.filter_filter]
  apply List.length_filter_lt_length_iff_exists.mpr
  obtain ⟨h0, hh0⟩ : ∃ h0, (ltmBatch now l).head? = some h0 := by
    cases htb : ltmBatch now l with
    | nil => rw [htb] at hne; cases hne
    | cons a as => exact ⟨a, rfl⟩
  have hh0m : h0 ∈ ltmBatch now l := List.mem_of_mem_head? hh0
  refine ⟨h0, List.mem_filter.mpr ⟨(ltmBatch_mem now l h0 hh0m).1,
    (ltmBatch_mem now l h0 hh0m).2⟩, ?_⟩
  intro hk
  have hany : (ltmBatch now l).any (fun b => b.id = h0.id) = true :=
    List.any_eq_true.mpr ⟨h0, hh0m, by simp⟩
  rw [hany] at hk
  cases hk

theorem ltmRemove_nodup (now : Int) (l : List LTMEntry)
    (hnodup : (l.map (fun e => e.id)).Nodup) :
    ((ltmRemove now l).map (fun e => e.id)).Nodup :=
  hnodup.sublist ((List.filter_sublist l).map _)

theorem cleanupBatches_spec (now : Int) : ∀ (fuel : Nat) (l : List LTMEntry),
    (l.filter (ltmMatches now)).length ≤ fuel →
    (l.map (fun e => e.id)).Nodup →
    (cleanupBatches now fuel l).2 = l.filter (fun e => ! ltmMatches now e) ∧
    ∀ b ∈ (cleanupBatches now fuel l).1,
      b.length ≤ LTM_CLEANUP_BATCH_SIZE ∧ ∀ e ∈ b, ltmMatches now e = true := by
  intro fuel
  induction fuel with
  | zero =>
    intro l hlen _
    have hempty : l.filter (ltmMatches now) = [] := by
      cases h : l.filter (ltmMatches now) with
      | nil => rfl
      | cons a as => rw [h] at hlen; simp at hlen
    have hall : ∀ x ∈ l, ltmMatches now x = false := by
      intro x hx
      rcases h : ltmMatches now x with _ | _
      · rfl
      · exact absurd (List.mem_filter.mpr ⟨hx, h⟩) (by rw [hempty]; simp)
    exact ⟨(filter_not_of_no_match now l hall).symm, by simp [cleanupBatches]⟩
  | succ fuel ih =>
    intro l hlen hnodup
    rcases hb : (ltmBatch now l).isEmpty with _ | _
    · have hlen2 : ((ltmRemove now l).filter (ltmMatches now)).length ≤ fuel := by
        have := ltmRemove_measure now l hb
        omega
      obtain ⟨ihfin, ihbatches⟩ := ih (ltmRemove now l) hlen2 (ltmRemove_nodup now l hnodup)
      constructor
      · show (cleanupBatches now (fuel + 1) l).2 = _
        rw [cleanupBatches, if_neg (by rw [hb]; exact Bool.false_ne_true)]
        rw [ihfin, ltmRemove_filter_not now l hnodup]
      · show ∀ b ∈ (cleanupBatches now (fuel + 1) l).1, _
        rw [cleanupBatches, if_neg (by rw [hb]; exact Bool.false_ne_true)]
        intro b hbm
        rcases List.mem_cons.mp hbm with hbm | hbm
        · subst hbm
          refine ⟨List.length_take_le _ _, ?_⟩
          intro e he
          exact (ltmBatch_mem now l e he).2
        · exact ihbatches b hbm
    · have hall := ltmBatch_empty_no_match now l hb
      constructor
      · show (cleanupBatches now (fuel + 1) l).2 = _
        rw [cleanupBatches, if_pos hb]
        exact (filter_not_of_no_match now l hall).symm
      · show ∀ b ∈ (cleanupBatches now (fuel + 1) l).1, _
        rw [cleanupBatches, if_pos hb]
        simp

/-- Claim C8: for an LTM collection with unique document identities, the
cleanup job deletes exactly those entries whose age exceeds their priority
tier's retention threshold — priority 100 older than 60 days, priority 91-99
older than 14 days, priority at most 90 older than 5 days — proceeding in
batches of at most `LTM_CLEANUP_BATCH_SIZE = 50` matching documents per chunk
until no matching entry remains; every non-matching entry is retained
unchanged, in order. -/
theorem ltm_cleanup_tiered_retention (now : Int) (l : List LTMEntry)
    (hnodup : (l.map (fun e => e.id)).Nodup) :
    (cleanupOldLTMs now l).2 = l.filter (fun e => ! ltmMatches now e) ∧
    ∀ b ∈ (cleanupOldLTMs now l).1,
      b.length ≤ LTM_CLEANUP_BATCH_SIZE ∧ ∀ e ∈ b, ltmMatches now e = true :=
  cleanupBatches_spec now l.length l (List.length_filter_le _ _) hnodup

/-- Instance of `ltm_cleanup_tiered_retention`: at `now` = 100 days, a 1-day-old
and a 20-day-old maximum-priority entry survive, while a 70-day-old
priority-100 entry, a 20-day-old priority-95 entry and a 6-day-old priority-40
entry are deleted. -/
theorem ltm_cleanup_tiered_retention_witness :
    (cleanupOldLTMs (100 * 86400000)
      [⟨1, 100, 99 * 86400000⟩, ⟨2, 100, 30 * 86400000⟩, ⟨3, 95, 80 * 86400000⟩,
        ⟨4, 40, 94 * 86400000⟩, ⟨5, 100, 80 * 86400000⟩]).2 =
      [⟨1, 100, 99 * 86400000⟩, ⟨5, 100, 80 * 86400000⟩] ∧
    ∀ b ∈ (cleanupOldLTMs (100 * 86400000)
      [⟨1, 100, 99 * 86400000⟩, ⟨2, 100, 30 * 86400000⟩, ⟨3, 95, 80 * 86400000⟩,
        ⟨4, 40, 94 * 86400000⟩, ⟨5, 100, 80 * 86400000⟩]).1,
      b.length ≤ LTM_CLEANUP_BATCH_SIZE ∧ ∀ e ∈ b, ltmMatches (100 * 86400000) e = true := by
  have h := ltm_cleanup_tiered_retention (100 * 86400000)
    [⟨1, 100, 99 * 86400000⟩, ⟨2, 100, 30 * 86400000⟩, ⟨3, 95, 80 * 86400000⟩,
      ⟨4, 40, 94 * 86400000⟩, ⟨5, 100, 80 * 86400000⟩] (by decide)
  refine ⟨?_, h.2⟩
  rw [h.1]
  decide
